import Mathlib

/-!
Verification development for the map-to-3MF conversion pipeline
(`src/services/modelingService.ts`, `src/services/exportService.ts`).

Coordinates are embedded as exact rationals (`ℚ`); JavaScript numbers that
may be non-finite are embedded as `JsNum` (a rational, NaN, or an infinity).
Transcendental library primitives (`Math.sqrt`, `Math.cos`, and the three.js
geometry kernels `ExtrudeGeometry` / `ShapeGeometry`, which are external
dependencies, not repository code) are passed in as explicit function
parameters; every theorem quantifies over them, so nothing proved depends on
their values.  `THREE.BoxGeometry` has simple, fixed semantics (an
axis-aligned box centred at the origin) and is given a concrete model below.
-/

namespace MapTo3MF

/-- A geographic point, degrees. -/
structure LatLon where
  lat : ℚ
  lon : ℚ
deriving DecidableEq, Repr

/-- Selection bounding box, degrees (`{north, south, east, west}`). -/
structure BBox where
  north : ℚ
  south : ℚ
  east : ℚ
  west : ℚ
deriving DecidableEq, Repr

/-- A point in the local planar frame (`latLonToLocal` output). -/
structure Vec2 where
  x : ℚ
  z : ℚ
deriving DecidableEq, Repr

/-- A point in model space. -/
structure Vec3 where
  x : ℚ
  y : ℚ
  z : ℚ
deriving DecidableEq, Repr

/-- A JavaScript number: a finite rational, NaN, or an infinity. -/
inductive JsNum where
  | fin (q : ℚ)
  | nan
  | inf
deriving DecidableEq, Repr

/-- `isFinite(x) && !isNaN(x)` for a JavaScript number. -/
def JsNum.isFin : JsNum → Bool
  | .fin _ => true
  | _ => false

/-- OSM tag map, restricted to the keys the services read.  The numeric
`levels` / `height` tags are stored pre-parsed (string parsing by
`parseInt` / `parseFloat` is elided; a missing tag is `none`). -/
structure Tags where
  building : Option String := none
  highway : Option String := none
  bridge : Option String := none
  waterway : Option String := none
  natural : Option String := none
  landuse : Option String := none
  leisure : Option String := none
  area : Option String := none
  levels : Option ℚ := none
  height : Option ℚ := none
deriving DecidableEq, Repr

/-- JavaScript truthiness of an optional string tag value
(missing or empty string is falsy). -/
def truthy : Option String → Bool
  | some s => s ≠ ""
  | none => false

/-- An OSM element as consumed by `ModelingService`.  A missing `geometry`
field and an empty geometry array are both represented by `[]` (each path
rejects the element). -/
structure OSMElement where
  eid : ℕ
  tags : Option Tags
  geometry : List LatLon
deriving DecidableEq, Repr

/-! ## Spatial filter (`isElementInBounds` and helpers) -/

/-- `isPointInBounds`: inclusive containment of a point in the bbox. -/
def isPointInBounds (p : LatLon) (b : BBox) : Bool :=
  decide (b.south ≤ p.lat) && decide (p.lat ≤ b.north) &&
  decide (b.west ≤ p.lon) && decide (p.lon ≤ b.east)

/-- One accumulation step of `getElementBounds`. -/
def ebStep (b : BBox) (q : LatLon) : BBox :=
  ⟨max b.north q.lat, min b.south q.lat, max b.east q.lon, min b.west q.lon⟩

/-- `getElementBounds`: the element geometry's own axis-aligned bounds.
The source initialises with infinities and folds over all points; for a
non-empty list this equals folding from the first point.  The `[]` case is
unreachable (callers reject empty geometry first). -/
def getElementBounds (g : List LatLon) : BBox :=
  match g with
  | [] => ⟨0, 0, 0, 0⟩
  | p :: rest => rest.foldl ebStep ⟨p.lat, p.lat, p.lon, p.lon⟩

/-- `boundsIntersect`: axis-aligned bbox overlap test. -/
def boundsIntersect (b1 b2 : BBox) : Bool :=
  if b1.east < b2.west ∨ b1.west > b2.east ∨ b1.north < b2.south ∨ b1.south > b2.north
  then false else true

/-- `lineIntersectsBounds`: coarse segment/rectangle test via the segment's
own bounds. -/
def lineIntersectsBounds (p1 p2 : LatLon) (b : BBox) : Bool :=
  let minLat := min p1.lat p2.lat
  let maxLat := max p1.lat p2.lat
  let minLon := min p1.lon p2.lon
  let maxLon := max p1.lon p2.lon
  if maxLat < b.south ∨ minLat > b.north ∨ maxLon < b.west ∨ minLon > b.east
  then false else true

/-- The list shifted cyclically by one, so that `l.zip (cyclicShift l)`
pairs each vertex with its predecessor (the source's `j = i-1` indexing,
starting from `j = length - 1`). -/
def cyclicShift {α : Type} (l : List α) : List α :=
  match l.getLast? with
  | none => []
  | some x => x :: l.dropLast

/-- `isPointInPolygon`: ray casting.  The division is evaluated only when
the edge straddles the ray's latitude (the source short-circuits on `&&`;
when it does not straddle, the condition is false either way). -/
def isPointInPolygon (pt : LatLon) (poly : List LatLon) : Bool :=
  (poly.zip (cyclicShift poly)).foldl
    (fun inside pr =>
      let yi := pr.1.lat; let xi := pr.1.lon
      let yj := pr.2.lat; let xj := pr.2.lon
      if ((yi > pt.lat) ≠ (yj > pt.lat)) ∧
         pt.lon < (xj - xi) * (pt.lat - yi) / (yj - yi) + xi
      then !inside else inside)
    false

/-- `isPolygonContainsBounds`: all four bbox corners are inside the polygon. -/
def isPolygonContainsBounds (poly : List LatLon) (b : BBox) : Bool :=
  [(⟨b.north, b.west⟩ : LatLon), ⟨b.north, b.east⟩, ⟨b.south, b.east⟩, ⟨b.south, b.west⟩].all
    (fun c => isPointInPolygon c poly)

/-- Consecutive pairs of a list (the element's non-closing edges). -/
def consecPairs {α : Type} : List α → List (α × α)
  | a :: b :: rest => (a, b) :: consecPairs (b :: rest)
  | _ => []

/-- `element.tags?.area !== "no"` (missing tags count as not-"no"). -/
def areaNotNo (e : OSMElement) : Bool :=
  match e.tags with
  | none => true
  | some t => decide (t.area ≠ some "no")

/-- `isElementInBounds`: empty geometry is rejected; then cheap bounds
reject, vertex test, edge tests (closing edge only for ≥3 points with
`area ≠ "no"`), and finally polygon-contains-bbox. -/
def isElementInBounds (e : OSMElement) (bbox : BBox) : Bool :=
  match e.geometry with
  | [] => false
  | p0 :: rest =>
    let g := p0 :: rest
    if !(boundsIntersect (getElementBounds g) bbox) then false
    else if g.any (fun p => isPointInBounds p bbox) then true
    else if decide (1 < g.length) &&
            (consecPairs g).any (fun pr => lineIntersectsBounds pr.1 pr.2 bbox) then true
    else if decide (2 < g.length) && areaNotNo e &&
            lineIntersectsBounds (g.getLastD p0) p0 bbox then true
    else if decide (2 < g.length) && areaNotNo e then isPolygonContainsBounds g bbox
    else false

/-- All edges of an element's point list: the consecutive edges plus the
closing edge (for a single point this degenerates to the point paired with
itself). -/
def allEdges : List LatLon → List (LatLon × LatLon)
  | [] => []
  | p0 :: rest => consecPairs (p0 :: rest) ++ [((p0 :: rest).getLastD p0, p0)]

/-! ## Mesh records and the exportable-geometry pass -/

/-- Mesh category (`Model3D.type`). -/
inductive Category where
  | terrain
  | building
  | road
  | bridge
  | water
  | vegetation
deriving DecidableEq, Repr

/-- A builder-local `THREE.BufferGeometry`: a flat `x,y,z,…` position array
(always finite, exact rationals) and an optional triangle index. -/
structure Geom where
  positions : List ℚ
  index : Option (List ℕ)
deriving DecidableEq, Repr

/-- The geometry stored in a registry record by `createExportableGeometry`
(or crafted by hand, to exercise the exporter's validation): a flat position
array of JavaScript numbers plus an optional index.  A record whose
`geometry` field is `null` or lacks a position attribute is represented by
`none` at the record level. -/
structure ExportGeom where
  positions : List JsNum
  index : Option (List ℕ)
deriving DecidableEq, Repr

/-- The record's stored Y-rotation, represented by the cosine/sine pair of
the angle (the source stores `angle = atan2(dz, dx)` itself, which is used
only through its cosine and sine; for a road/bridge segment of length `d`
these are `dx/d` and `dz/d`). -/
structure Rot where
  c : ℚ
  s : ℚ
deriving DecidableEq, Repr

/-- A `Model3D` registry record (`{id, type, geometry, material, position,
rotation}` with the material dropped; the id is kept as the element id and
segment index). -/
structure MeshRecord where
  elemId : ℕ
  segIdx : ℕ
  rtype : Category
  geometry : Option ExportGeom
  position : Vec3
  rotation : Option Rot
deriving DecidableEq, Repr

/-- Per-pass model statistics (`modelStats`).  Vertex/triangle totals are
rationals because the source divides counts by 3 with JavaScript float
division. -/
structure Stats where
  buildings : ℕ
  roads : ℕ
  bridges : ℕ
  water : ℕ
  vegetation : ℕ
  totalVertices : ℚ
  totalTriangles : ℚ
deriving DecidableEq, Repr

/-- The all-zero statistics record (a freshly constructed service). -/
def Stats.zero : Stats := ⟨0, 0, 0, 0, 0, 0, 0⟩

/-- `validateGeometryForExport` on builder geometry: non-empty position
array whose length is a multiple of 3.  The source additionally rejects
NaN/Infinite entries; builder coordinates are exact rationals here, so that
check is vacuously true. -/
def validateGeometryForExport (g : Geom) : Bool :=
  decide (g.positions.length ≠ 0) && decide (g.positions.length % 3 = 0)

/-- Translate a flat position array by the record position, three components
at a time (the vertex loop of `createExportableGeometry`).  A trailing
fragment shorter than 3 is unreachable behind validation. -/
def addOffset : List ℚ → Vec3 → List ℚ
  | x :: y :: z :: rest, p => (x + p.x) :: (y + p.y) :: (z + p.z) :: addOffset rest p
  | l, _ => l

/-- `createExportableGeometry` (with `simplify = false`, as at every call
site): validate, translate every vertex by the record position, keep the
index or synthesize a sequential one.  Returns `none` on validation failure
(the source returns `null`).  Normal-attribute handling is omitted: the
exporter never reads normals. -/
def createExportableGeometry (g : Geom) (p : Vec3) : Option ExportGeom :=
  if validateGeometryForExport g then
    let transformed := (addOffset g.positions p).map JsNum.fin
    let idx : List ℕ :=
      match g.index with
      | some l => l
      | none => List.range (g.positions.length / 3)
    some ⟨transformed, some idx⟩
  else none

/-- `updateModelStats`: add the export geometry's vertex count and triangle
count (`index.count / 3`, or `vertexCount / 3` without an index) to the
running totals. -/
def updateModelStats (eg : ExportGeom) (s : Stats) : Stats :=
  let vc : ℚ := (eg.positions.length : ℚ) / 3
  let tc : ℚ :=
    match eg.index with
    | some idx => (idx.length : ℚ) / 3
    | none => vc / 3
  { s with totalVertices := s.totalVertices + vc, totalTriangles := s.totalTriangles + tc }

/-! ## 3MF export (`exportService.generate3MFContent`) -/

/-- `validateGeometry` in the exporter: the record has a geometry with a
position attribute, the array is non-empty with length a multiple of 3, and
every entry is finite. -/
def validateGeometry : Option ExportGeom → Bool
  | none => false
  | some g =>
    decide (g.positions.length ≠ 0) && decide (g.positions.length % 3 = 0) &&
    g.positions.all JsNum.isFin

/-- Round a rational half away from zero (the rounding of
`Number.prototype.toFixed` on an exact decimal argument; binary-float tie
artifacts are not modelled). -/
def roundAway (q : ℚ) : ℤ :=
  if 0 ≤ q then ⌊q + 1/2⌋ else -⌊-q + 1/2⌋

/-- `x.toFixed(3)` followed by re-reading the decimal string as a number:
round to 3 decimal places. -/
def toFixed3 (q : ℚ) : ℚ :=
  (roundAway (q * 1000) : ℚ) / 1000

/-- Split a flat list into consecutive triples, dropping an incomplete
tail (the `i += 3` loops with an `i + 2 < length` guard). -/
def jsTriples {α : Type} : List α → List (α × α × α)
  | x :: y :: z :: rest => (x, y, z) :: jsTriples rest
  | _ => []

/-- An emitted `<vertex>` element, holding the three printed coordinate
values as exact rationals. -/
structure Vtx where
  x : ℚ
  y : ℚ
  z : ℚ
deriving DecidableEq, Repr

/-- An emitted `<triangle>` element. -/
structure Tri where
  a : ℕ
  b : ℕ
  c : ℕ
deriving DecidableEq, Repr

/-- The exporter's vertex loop for one record: each coordinate is scaled to
millimeters (`* 1000`) and printed with `toFixed(3)`; a vertex whose
printed coordinates do not parse back as finite numbers is dropped
(`isValidCoordinate`) — that happens exactly when a component is NaN or
infinite. -/
def modelVertices (g : ExportGeom) : List Vtx :=
  (jsTriples g.positions).filterMap (fun t =>
    match t with
    | (.fin x, .fin y, .fin z) =>
      some ⟨toFixed3 (x * 1000), toFixed3 (y * 1000), toFixed3 (z * 1000)⟩
    | _ => none)

/-- Sequential triangles for a non-indexed geometry: `i` steps by 3 below
the vertex count with an `i + 2 < count` guard. -/
def seqTriangles (n : ℕ) : List Tri :=
  (List.range (n / 3)).map (fun k => ⟨3 * k, 3 * k + 1, 3 * k + 2⟩)

/-- The exporter's triangle loop for one record: indexed triangles are kept
only when all three indices are below the vertex count and pairwise
distinct; a non-indexed geometry gets sequential triangles. -/
def modelTriangles (g : ExportGeom) : List Tri :=
  let vertexCount := g.positions.length / 3
  match g.index with
  | some idx =>
    (jsTriples idx).filterMap (fun t =>
      if t.1 < vertexCount ∧ t.2.1 < vertexCount ∧ t.2.2 < vertexCount ∧
         t.1 ≠ t.2.1 ∧ t.2.1 ≠ t.2.2 ∧ t.1 ≠ t.2.2
      then some ⟨t.1, t.2.1, t.2.2⟩ else none)
  | none => seqTriangles vertexCount

/-- An emitted `<object>` element. -/
structure Obj3MF where
  oid : ℕ
  pid : ℕ
  vertices : List Vtx
  triangles : List Tri
deriving DecidableEq, Repr

/-- The generated 3MF document, structurally: the `unit` attribute of
`<model>`, the `<object>` list, the `<build>` item list, and the indices of
the input records that were skipped with a `console.warn` diagnostic. -/
structure ThreeMF where
  unit : String
  objects : List Obj3MF
  buildItems : List ℕ
  warnings : List ℕ
deriving DecidableEq, Repr

/-- First-occurrence deduplication (insertion order of a JavaScript `Set`). -/
def dedupKeepFirst : List Category → List Category
  | [] => []
  | c :: rest =>
    let tail := dedupKeepFirst rest
    c :: tail.filter (fun d => d ≠ c)

/-- The base-material id assigned to a category (`materialMap.get(type) || 1`):
its 1-based position among the distinct record types. -/
def materialIdFor (types : List Category) (t : Category) : ℕ :=
  match (dedupKeepFirst types).indexOf? t with
  | some i => i + 1
  | none => 1

/-- One step of the exporter's record loop: a record failing
`validateGeometry`, or producing no vertices or no triangles, is skipped
with a warning (its input index is recorded); an emitted record becomes an
`<object>` with the next sequential id. -/
def gen3mfStep (types : List Category) (acc : List Obj3MF × List ℕ × ℕ)
    (im : ℕ × MeshRecord) : List Obj3MF × List ℕ × ℕ :=
  match im.2.geometry with
  | some g =>
    if validateGeometry (some g) then
      if modelVertices g ≠ [] ∧ modelTriangles g ≠ [] then
        (acc.1 ++ [⟨acc.2.2, materialIdFor types im.2.rtype, modelVertices g, modelTriangles g⟩],
         acc.2.1, acc.2.2 + 1)
      else
        (acc.1, acc.2.1 ++ [im.1], acc.2.2)
    else
      (acc.1, acc.2.1 ++ [im.1], acc.2.2)
  | none => (acc.1, acc.2.1 ++ [im.1], acc.2.2)

/-- `generate3MFContent`, structurally: one pass over the records applying
`gen3mfStep`; the `<build>` section lists one `<item>` per emitted object. -/
def generate3MFContent (models : List MeshRecord) : ThreeMF :=
  let types := dedupKeepFirst (models.map (fun m => m.rtype))
  let r := models.enum.foldl (gen3mfStep types) ([], [], 1)
  ⟨"millimeter", r.1, (List.range (r.2.2 - 1)).map (fun i => i + 1), r.2.1⟩

/-! ## Configuration -/

/-- One entry of the per-road-class lookup table (`roads.types`). -/
structure RoadTypeConfig where
  width : ℚ
  height : ℚ
deriving DecidableEq, Repr

/-- `modelConfig.roads`. -/
structure RoadsConfig where
  enabled : Bool
  width : ℚ
  height : ℚ
  types : List (String × RoadTypeConfig)
deriving DecidableEq, Repr

/-- `modelConfig.buildings` (the fields the services read). -/
structure BuildingsConfig where
  enabled : Bool
  baseHeight : ℚ
  minHeight : ℚ
  ignoreSmaller : ℚ
deriving DecidableEq, Repr

/-- `modelConfig.bridges` (the fields the services read). -/
structure BridgesConfig where
  enabled : Bool
  height : ℚ
  width : ℚ
  pillarsEnabled : Bool
  pillarSpacing : ℚ
deriving DecidableEq, Repr

/-- `modelConfig.water` (the fields the services read). -/
structure WaterConfig where
  enabled : Bool
deriving DecidableEq, Repr

/-- `modelConfig.vegetation` (the fields the services read). -/
structure VegetationConfig where
  enabled : Bool
  height : ℚ
deriving DecidableEq, Repr

/-- `modelConfig.terrain` (the fields the services read). -/
structure TerrainConfig where
  enabled : Bool
  baseHeight : ℚ
deriving DecidableEq, Repr

/-- `ModelConfig` (the fields the services read; `globalScale` is
`config.global?.scale`). -/
structure ModelConfig where
  globalScale : ℚ
  terrain : TerrainConfig
  buildings : BuildingsConfig
  roads : RoadsConfig
  bridges : BridgesConfig
  water : WaterConfig
  vegetation : VegetationConfig
deriving DecidableEq, Repr

/-- `BasicConfig` (the fields the services read). -/
structure BasicConfig where
  centerLon : ℚ
  centerLat : ℚ
  coordScale : ℚ
  renderHeight : ℚ
deriving DecidableEq, Repr

/-- JavaScript `a || b` on numbers (`0` is falsy; NaN does not occur on
this path). -/
def jsOr (a b : ℚ) : ℚ := if a = 0 then b else a

/-- `applyGlobalScale`: multiply by `config.global?.scale || 1`. -/
def applyGlobalScale (v : ℚ) (cfg : ModelConfig) : ℚ :=
  v * jsOr cfg.globalScale 1

/-- The per-pass coordinate context fixed at the start of `generateModels`:
centre point, the value of `Math.cos(centerLat * PI / 180)` (a
transcendental constant, abstracted as a parameter), and
`coordinateSystem.scale * renderHeight`. -/
structure Ctx where
  centerLon : ℚ
  centerLat : ℚ
  cosCenterLat : ℚ
  scale : ℚ
deriving DecidableEq, Repr

/-- `latLonToLocal`: equirectangular projection into the local frame. -/
def latLonToLocal (ctx : Ctx) (p : LatLon) : Vec2 :=
  ⟨(p.lon - ctx.centerLon) * 111320 * ctx.cosCenterLat * ctx.scale,
   -((p.lat - ctx.centerLat) * 111320) * ctx.scale⟩

/-- The in-bounds point filter applied by every builder before projecting
(the same inclusive comparison as `isPointInBounds`). -/
def filterProject (ctx : Ctx) (bbox : BBox) (g : List LatLon) : List Vec2 :=
  (g.filter (fun p => isPointInBounds p bbox)).map (latLonToLocal ctx)

/-! ## Box geometry

`THREE.BoxGeometry(w, h, d)` is an axis-aligned box centred at the origin,
emitted as 24 vertices (4 per face) and 36 indices.  The per-face vertex
ordering below is a fixed convention; three.js's own ordering differs only
by a permutation, which no claim observes. -/

/-- The 24-vertex flat position array of a centred box. -/
def boxPositions (w h d : ℚ) : List ℚ :=
  let a := w / 2
  let b := h / 2
  let c := d / 2
  [ a, -b, -c,   a,  b, -c,   a,  b,  c,   a, -b,  c,
   -a, -b, -c,  -a, -b,  c,  -a,  b,  c,  -a,  b, -c,
   -a,  b, -c,   a,  b, -c,   a,  b,  c,  -a,  b,  c,
   -a, -b, -c,  -a, -b,  c,   a, -b,  c,   a, -b, -c,
   -a, -b,  c,   a, -b,  c,   a,  b,  c,  -a,  b,  c,
   -a, -b, -c,  -a,  b, -c,   a,  b, -c,   a, -b, -c]

/-- The 36-entry triangle index of the box (two triangles per face). -/
def boxIndices : List ℕ :=
  [0, 1, 2, 0, 2, 3, 4, 5, 6, 4, 6, 7, 8, 9, 10, 8, 10, 11,
   12, 13, 14, 12, 14, 15, 16, 17, 18, 16, 18, 19, 20, 21, 22, 20, 22, 23]

/-- Model of `new THREE.BoxGeometry(w, h, d)`. -/
def boxGeometry (w h d : ℚ) : Geom :=
  ⟨boxPositions w h d, some boxIndices⟩

/-! ## Builders -/

/-- The roads lookup: `modelConfig.roads.types[roadType] || fallback`.
The fallback applies the global scale to the category-level width/height;
a found per-class entry is used as-is (as in the source). -/
def roadConfigFor (cfg : ModelConfig) (highwayTag : Option String) : RoadTypeConfig :=
  match highwayTag.bind (fun k => (cfg.roads.types.lookup k)) with
  | some rc => rc
  | none =>
    ⟨applyGlobalScale cfg.roads.width cfg, applyGlobalScale cfg.roads.height cfg⟩

/-- One oriented box segment record between two projected points, or `none`
when the segment is shorter than `0.1`.  `msqrt` models `Math.sqrt`; the
stored rotation is the cosine/sine pair of `atan2(dz, dx)`, namely
`(dx/d, dz/d)`. -/
def roadSegmentRecord (msqrt : ℚ → ℚ) (eid i : ℕ) (rc : RoadTypeConfig)
    (scale th : ℚ) (p q : Vec2) : Option MeshRecord :=
  let dx := q.x - p.x
  let dz := q.z - p.z
  let d := msqrt (dx ^ 2 + dz ^ 2)
  if d < 1/10 then none
  else
    let geom := boxGeometry d (rc.height * scale) (rc.width * scale)
    let pos : Vec3 := ⟨(p.x + q.x) / 2, th, (p.z + q.z) / 2⟩
    some ⟨eid, i, Category.road, createExportableGeometry geom pos, pos,
          some ⟨dx / d, dz / d⟩⟩

/-- The chain of road-segment records over consecutive point pairs. -/
def roadSegments (msqrt : ℚ → ℚ) (eid : ℕ) (rc : RoadTypeConfig)
    (scale th : ℚ) : ℕ → List Vec2 → List MeshRecord
  | i, p :: q :: rest =>
    (match roadSegmentRecord msqrt eid i rc scale th p q with
     | some r => [r]
     | none => []) ++ roadSegments msqrt eid rc scale th (i + 1) (q :: rest)
  | _, _ => []

/-- Fold the export-statistics update of a list of new records into the
running statistics (each record's `createExportableGeometry` call updates
`modelStats` when it succeeds). -/
def statsOfRecords (rs : List MeshRecord) (s : Stats) : Stats :=
  rs.foldl
    (fun acc r =>
      match r.geometry with
      | some g => updateModelStats g acc
      | none => acc)
    s

/-- Generation-pass state: the model registry, the terrain baseline, and
the running statistics. -/
structure GenState where
  models : List MeshRecord
  terrainHeight : ℚ
  stats : Stats
deriving DecidableEq, Repr

/-- `createRoad`: require ≥2 raw and ≥2 in-bounds points, look up the road
class, then emit one oriented box segment per consecutive pair, each
positioned with its vertical centre at the terrain baseline. -/
def createRoad (msqrt : ℚ → ℚ) (ctx : Ctx) (e : OSMElement) (cfg : ModelConfig)
    (bbox : BBox) (st : GenState) : GenState :=
  if e.geometry.length < 2 then st
  else
    let pts := filterProject ctx bbox e.geometry
    if pts.length < 2 then st
    else
      let rc := roadConfigFor cfg (e.tags.bind Tags.highway)
      let segs := roadSegments msqrt e.eid rc ctx.scale st.terrainHeight 0 pts
      { st with models := st.models ++ segs, stats := statsOfRecords segs st.stats }

/-- One bridge segment record (deck box elevated above the baseline by
`height/2 + 2` scale units), or `none` for a segment shorter than `0.1`. -/
def bridgeSegmentRecord (msqrt : ℚ → ℚ) (eid i : ℕ) (bh bw scale th : ℚ)
    (p q : Vec2) : Option MeshRecord :=
  let dx := q.x - p.x
  let dz := q.z - p.z
  let d := msqrt (dx ^ 2 + dz ^ 2)
  if d < 1/10 then none
  else
    let geom := boxGeometry d (bh * scale) (bw * scale)
    let pos : Vec3 := ⟨(p.x + q.x) / 2, th + bh * scale / 2 + 2 * scale, (p.z + q.z) / 2⟩
    some ⟨eid, i, Category.bridge, createExportableGeometry geom pos, pos,
          some ⟨dx / d, dz / d⟩⟩

/-- The chain of bridge-segment records over consecutive point pairs. -/
def bridgeSegments (msqrt : ℚ → ℚ) (eid : ℕ) (bh bw scale th : ℚ) :
    ℕ → List Vec2 → List MeshRecord
  | i, p :: q :: rest =>
    (match bridgeSegmentRecord msqrt eid i bh bw scale th p q with
     | some r => [r]
     | none => []) ++ bridgeSegments msqrt eid bh bw scale th (i + 1) (q :: rest)
  | _, _ => []

/-- `createBridge`: like `createRoad`, with the globally scaled bridge
height/width and the elevated deck position.  Pillars are added to the
scene only, never to the registry, so they do not appear here (they are
modelled separately by `addBridgePillars`). -/
def createBridge (msqrt : ℚ → ℚ) (ctx : Ctx) (e : OSMElement) (cfg : ModelConfig)
    (bbox : BBox) (st : GenState) : GenState :=
  if e.geometry.length < 2 then st
  else
    let pts := filterProject ctx bbox e.geometry
    if pts.length < 2 then st
    else
      let bh := applyGlobalScale cfg.bridges.height cfg
      let bw := applyGlobalScale cfg.bridges.width cfg
      let segs := bridgeSegments msqrt e.eid bh bw ctx.scale st.terrainHeight 0 pts
      { st with models := st.models ++ segs, stats := statsOfRecords segs st.stats }

/-- The building height resolution: `(heightTag || max(baseHeight,
max(minHeight, levels * 3))) * scale`, with `levels` defaulting to 3 and
`minHeight` to `minHeight || 3`, both globally scaled. -/
def buildingHeight (e : OSMElement) (cfg : ModelConfig) (scale : ℚ) : ℚ :=
  let levels := match e.tags.bind Tags.levels with
    | some l => l
    | none => 3
  let baseH := applyGlobalScale cfg.buildings.baseHeight cfg
  let minH := applyGlobalScale (jsOr cfg.buildings.minHeight 3) cfg
  let tagH := match e.tags.bind Tags.height with
    | some h => h
    | none => 0
  jsOr tagH (max baseH (max minH (levels * 3))) * scale

/-- `createBuilding`, as the builder-geometry/record pair it produces (or
`none` when fewer than 3 raw or in-bounds points survive).  `extrude`
models `new THREE.ExtrudeGeometry(shape, settings)` applied to the footprint
with depth the resolved height (an external three.js kernel, abstracted).
The record is translated by `(0, terrainHeight, 0)`: the mesh's
`position.y = terrainHeight` and x/z stay 0. -/
def buildingData (extrude : List Vec2 → ℚ → ℚ → Geom) (ctx : Ctx) (e : OSMElement)
    (cfg : ModelConfig) (bbox : BBox) (th : ℚ) : Option (Geom × MeshRecord) :=
  if e.geometry.length < 3 then none
  else
    let pts := filterProject ctx bbox e.geometry
    if pts.length < 3 then none
    else
      let height := buildingHeight e cfg ctx.scale
      let geom := extrude pts height ctx.scale
      let pos : Vec3 := ⟨0, th, 0⟩
      some (geom, ⟨e.eid, 0, Category.building, createExportableGeometry geom pos, pos, none⟩)

/-- The raw-geometry statistics bump done inside `createBuilding` before the
registry push (`totalVertices += position.count`, `totalTriangles +=
index.count / 3` or `count / 3`), in addition to `updateModelStats` run by
`createExportableGeometry`. -/
def rawGeomStats (g : Geom) (s : Stats) : Stats :=
  let vc : ℚ := (g.positions.length : ℚ) / 3
  let tc : ℚ :=
    match g.index with
    | some idx => (idx.length : ℚ) / 3
    | none => vc / 3
  { s with buildings := s.buildings + 1,
           totalVertices := s.totalVertices + vc, totalTriangles := s.totalTriangles + tc }

/-- `createBuilding` as a state transformer. -/
def createBuilding (extrude : List Vec2 → ℚ → ℚ → Geom) (ctx : Ctx) (e : OSMElement)
    (cfg : ModelConfig) (bbox : BBox) (st : GenState) : GenState :=
  match buildingData extrude ctx e cfg bbox st.terrainHeight with
  | none => st
  | some (g, r) =>
    { st with models := st.models ++ [r],
              stats := statsOfRecords [r] (rawGeomStats g st.stats) }

/-- `createWater`: a flat shape mesh at the terrain baseline (`shapeGeom`
models `new THREE.ShapeGeometry(shape)`, an external three.js kernel). -/
def createWater (shapeGeom : List Vec2 → Geom) (ctx : Ctx) (e : OSMElement)
    (bbox : BBox) (st : GenState) : GenState :=
  if e.geometry.length < 3 then st
  else
    let pts := filterProject ctx bbox e.geometry
    if pts.length < 3 then st
    else
      let geom := shapeGeom pts
      let pos : Vec3 := ⟨0, st.terrainHeight, 0⟩
      let r : MeshRecord :=
        ⟨e.eid, 0, Category.water, createExportableGeometry geom pos, pos, none⟩
      { st with models := st.models ++ [r], stats := statsOfRecords [r] st.stats }

/-- `createVegetation`: a flat shape mesh at the baseline plus half the
globally scaled vegetation height. -/
def createVegetation (shapeGeom : List Vec2 → Geom) (ctx : Ctx) (e : OSMElement)
    (cfg : ModelConfig) (bbox : BBox) (st : GenState) : GenState :=
  if e.geometry.length < 3 then st
  else
    let pts := filterProject ctx bbox e.geometry
    if pts.length < 3 then st
    else
      let geom := shapeGeom pts
      let vh := applyGlobalScale cfg.vegetation.height cfg
      let pos : Vec3 := ⟨0, st.terrainHeight + vh * ctx.scale / 2, 0⟩
      let r : MeshRecord :=
        ⟨e.eid, 0, Category.vegetation, createExportableGeometry geom pos, pos, none⟩
      { st with models := st.models ++ [r], stats := statsOfRecords [r] st.stats }

/-! ## Classification (`processElement` dispatch) -/

/-- `calculatePolygonArea`: shoelace formula on raw lat/lon, times the
squared meters-per-degree approximation. -/
def calculatePolygonArea (pts : List LatLon) : ℚ :=
  if pts.length < 3 then 0
  else
    let pairs := consecPairs pts ++
      (match pts with
       | [] => []
       | p :: _ => [(pts.getLastD p, p)])
    let s := pairs.foldl (fun acc pr => acc + pr.1.lat * pr.2.lon - pr.2.lat * pr.1.lon) 0
    (|s| / 2) * 111000 * 111000

/-- `shouldIgnoreBuilding`: fewer than 3 geometry points, or footprint area
below `ignoreSmaller || 10` square meters. -/
def shouldIgnoreBuilding (e : OSMElement) (cfg : ModelConfig) : Bool :=
  if e.geometry.length < 3 then true
  else decide (calculatePolygonArea e.geometry < jsOr cfg.buildings.ignoreSmaller 10)

/-- The dispatch decision of `processElement`: the `if / else if` chain over
tags, gated by the per-category enable flags, with the building branch
additionally dropping ignored (too-small) buildings without falling through
to later branches.  Returns the category whose builder runs, or `none`. -/
def elementBranch (e : OSMElement) (cfg : ModelConfig) : Option Category :=
  match e.tags with
  | none => none
  | some t =>
    if truthy t.building && cfg.buildings.enabled then
      if shouldIgnoreBuilding e cfg then none else some Category.building
    else if truthy t.highway && cfg.roads.enabled then some Category.road
    else if decide (t.bridge = some "yes") && cfg.bridges.enabled then some Category.bridge
    else if (truthy t.waterway || decide (t.natural = some "water")) && cfg.water.enabled then
      some Category.water
    else if (decide (t.landuse = some "grass") || decide (t.landuse = some "forest") ||
             decide (t.natural = some "wood") || decide (t.leisure = some "park")) &&
            cfg.vegetation.enabled then
      some Category.vegetation
    else none

/-- The per-category counter bump `processElement` performs after a builder
returns. -/
def bumpCounter (c : Category) (s : Stats) : Stats :=
  match c with
  | Category.building => { s with buildings := s.buildings + 1 }
  | Category.road => { s with roads := s.roads + 1 }
  | Category.bridge => { s with bridges := s.bridges + 1 }
  | Category.water => { s with water := s.water + 1 }
  | Category.vegetation => { s with vegetation := s.vegetation + 1 }
  | Category.terrain => s

/-- `processElement`: skip untagged elements and elements outside the
selection, then run the builder chosen by the tag chain and bump its
counter. -/
def processElement (msqrt : ℚ → ℚ) (extrude : List Vec2 → ℚ → ℚ → Geom)
    (shapeGeom : List Vec2 → Geom) (ctx : Ctx) (e : OSMElement) (cfg : ModelConfig)
    (bbox : BBox) (st : GenState) : GenState :=
  if !(isElementInBounds e bbox) then st
  else
    match elementBranch e cfg with
    | some Category.building =>
      let st2 := createBuilding extrude ctx e cfg bbox st
      { st2 with stats := bumpCounter Category.building st2.stats }
    | some Category.road =>
      let st2 := createRoad msqrt ctx e cfg bbox st
      { st2 with stats := bumpCounter Category.road st2.stats }
    | some Category.bridge =>
      let st2 := createBridge msqrt ctx e cfg bbox st
      { st2 with stats := bumpCounter Category.bridge st2.stats }
    | some Category.water =>
      let st2 := createWater shapeGeom ctx e bbox st
      { st2 with stats := bumpCounter Category.water st2.stats }
    | some Category.vegetation =>
      let st2 := createVegetation shapeGeom ctx e cfg bbox st
      { st2 with stats := bumpCounter Category.vegetation st2.stats }
    | _ => st

/-! ## The generation pass -/

/-- `clearModels`: remove every model from the registry.  `modelStats` is
left untouched (this is the accumulation defect exercised below). -/
def clearModels (st : GenState) : GenState :=
  { st with models := [] }

/-- `generateBasePlatform`: when terrain is enabled, build the ground slab
(its geometry kernel is the abstracted `platformGeom`, covering both the
haversine-sized `BoxGeometry` and the rounded-box variant), positioned with
its bottom at `y = 0` and top at `y = baseHeight`, and set the terrain
baseline to the slab's top. -/
def generateBasePlatform (platformGeom : BBox → ModelConfig → Geom)
    (bbox : BBox) (cfg : ModelConfig) (st : GenState) : GenState :=
  if cfg.terrain.enabled then
    let ph := cfg.terrain.baseHeight
    let pos : Vec3 := ⟨0, ph / 2, 0⟩
    let geom := platformGeom bbox cfg
    let r : MeshRecord :=
      ⟨0, 0, Category.terrain, createExportableGeometry geom pos, pos, none⟩
    { st with terrainHeight := ph,
              models := st.models ++ [r],
              stats := statsOfRecords [r] st.stats }
  else st

/-- `generateModels`: clear the registry, fix the coordinate context, preset
the baseline from the scaled terrain height, build the platform, then
process every element that intersects the selection. -/
def generateModels (msqrt : ℚ → ℚ) (extrude : List Vec2 → ℚ → ℚ → Geom)
    (shapeGeom : List Vec2 → Geom) (platformGeom : BBox → ModelConfig → Geom)
    (cosCenterLat : ℚ) (elements : List OSMElement) (basic : BasicConfig)
    (cfg : ModelConfig) (bbox : BBox) (st : GenState) : GenState :=
  let st1 := clearModels st
  let ctx : Ctx :=
    ⟨basic.centerLon, basic.centerLat, cosCenterLat, basic.coordScale * basic.renderHeight⟩
  let st2 := { st1 with
    terrainHeight := applyGlobalScale cfg.terrain.baseHeight cfg * ctx.scale }
  let st3 := generateBasePlatform platformGeom bbox cfg st2
  elements.foldl
    (fun s e => if isElementInBounds e bbox then processElement msqrt extrude shapeGeom ctx e cfg bbox s else s)
    st3

/-- `getModelStats`: the reported statistics snapshot. -/
def getModelStats (st : GenState) : Stats := st.stats

/-! ## Bridge pillars (`addBridgePillars`) -/

/-- `pillarConfig` (the fields `addBridgePillars` reads). -/
structure PillarConfig where
  spacing : ℚ
  radius : ℚ
deriving DecidableEq, Repr

/-- One emitted pillar: a vertical cylinder centred at `yCenter`, spanning
`yCenter ± height / 2`. -/
structure Pillar where
  x : ℚ
  yCenter : ℚ
  z : ℚ
  height : ℚ
deriving DecidableEq, Repr

/-- `addBridgePillars`: `pillarCount = floor(distance / spacing)`; the loop
runs `i = 0 … pillarCount` inclusive with `t = i / max(pillarCount, 1)`;
each pillar is a cylinder of height `bridgeY - terrainHeight` centred at
`terrainHeight + height / 2` on the interpolated segment point.  (`bridgeY`
is the deck mesh's `position.y`.) -/
def addBridgePillars (p q : Vec2) (pc : PillarConfig) (distance bridgeY th : ℚ) :
    List Pillar :=
  let pillarCount : ℤ := ⌊distance / pc.spacing⌋
  let ph := bridgeY - th
  if pillarCount < 0 then []
  else
    (List.range (pillarCount.toNat + 1)).map (fun (i : ℕ) =>
      let t : ℚ := (i : ℚ) / max (pillarCount : ℚ) 1
      ⟨p.x + (q.x - p.x) * t, th + ph / 2, p.z + (q.z - p.z) * t, ph⟩)

/-! ## Derived observations used by the claims -/

/-- Minimum of a rational list (`none` for the empty list). -/
def minQ : List ℚ → Option ℚ
  | [] => none
  | x :: xs => some (xs.foldl min x)

/-- The Y components of an export geometry's finite vertices. -/
def geomYs (eg : ExportGeom) : List ℚ :=
  (jsTriples eg.positions).filterMap (fun t =>
    match t.2.1 with
    | .fin q => some q
    | _ => none)

/-- The lowest vertex Y of an export geometry. -/
def geomMinY (eg : ExportGeom) : Option ℚ :=
  minQ (geomYs eg)

/-- The finite value of a JavaScript number (0 for NaN/infinities; used
only where finiteness is separately guaranteed). -/
def finPart : JsNum → ℚ
  | .fin q => q
  | _ => 0

/-- Modelled from the spec: applying a record's full local transform —
rotation about the Y axis (given by its cosine/sine pair) followed by the
position translation — to a builder-local vertex.  This is the
transformation the spec says `createExportableGeometry` performs; it is
compared against the code's actual (translation-only) behaviour. -/
def specFullTransformVertex (r : Rot) (p : Vec3) (v : Vec3) : Vec3 :=
  ⟨v.x * r.c + v.z * r.s + p.x, v.y + p.y, -v.x * r.s + v.z * r.c + p.z⟩

/-- Modelled from the spec: the pure tag-precedence classifier
(Building > Road > Bridge > Water > Vegetation, first match wins),
depending on the tags alone. -/
def specClassify (t : Tags) : Option Category :=
  if truthy t.building then some Category.building
  else if truthy t.highway then some Category.road
  else if decide (t.bridge = some "yes") then some Category.bridge
  else if truthy t.waterway || decide (t.natural = some "water") then some Category.water
  else if decide (t.landuse = some "grass") || decide (t.landuse = some "forest") ||
          decide (t.natural = some "wood") || decide (t.leisure = some "park") then
    some Category.vegetation
  else none

/-! ## Concrete fixtures (shared by counterexamples and witnesses) -/

/-- A model of `Math.sqrt` correct at the only argument the fixtures reach
(`10² = 100`). -/
def msqrtFix : ℚ → ℚ := fun q => if q = 100 then 10 else 0

/-- Fixture coordinate context: centre `(0, 0)`, cosine 1, scale 1. -/
def ctxFix : Ctx := ⟨0, 0, 1, 1⟩

/-- Fixture selection box. -/
def bboxFix : BBox := ⟨1, -1, 1, -1⟩

/-- A residential road element whose local projection is the segment
`(0,0) – (10,0)`. -/
def roadElem : OSMElement :=
  ⟨7, some { highway := some "residential" }, [⟨0, 0⟩, ⟨0, 10/111320⟩]⟩

/-- A residential road element whose local projection is the segment
`(0,0) – (0,10)` (so the stored rotation is a quarter turn). -/
def roadElemV : OSMElement :=
  ⟨9, some { highway := some "residential" }, [⟨0, 0⟩, ⟨-10/111320, 0⟩]⟩

/-- A configuration with only roads enabled; the `residential` road class
maps to width 4, height 2. -/
def cfgRoadsOnly : ModelConfig :=
  ⟨1, ⟨false, 3⟩, ⟨false, 10, 3, 10⟩, ⟨true, 8, 1, [("residential", ⟨4, 2⟩)]⟩,
   ⟨false, 1, 5, true, 5⟩, ⟨false⟩, ⟨false, 2⟩⟩

/-- Pass state with terrain baseline 5 and an empty registry. -/
def stTh5 : GenState := ⟨[], 5, Stats.zero⟩

/-- Pass state with terrain baseline 0 and an empty registry. -/
def stTh0 : GenState := ⟨[], 0, Stats.zero⟩

/-- Fixture basic configuration (centre `(0,0)`, scale `1 * 1`). -/
def basicFix : BasicConfig := ⟨0, 0, 1, 1⟩

/-- Trivial stand-in for the extrude kernel (never reached by the road-only
fixtures). -/
def extrudeNone : List Vec2 → ℚ → ℚ → Geom := fun _ _ _ => ⟨[], none⟩

/-- Trivial stand-in for the shape kernel. -/
def shapeNone : List Vec2 → Geom := fun _ => ⟨[], none⟩

/-- Trivial stand-in for the platform kernel. -/
def platformNone : BBox → ModelConfig → Geom := fun _ _ => ⟨[], none⟩

/-- First generation pass over the road fixture, from a fresh service
state. -/
def c7run1 : GenState :=
  generateModels msqrtFix extrudeNone shapeNone platformNone 1 [roadElem] basicFix
    cfgRoadsOnly bboxFix ⟨[], 0, Stats.zero⟩

/-- Second generation pass with identical inputs, continuing from the first
pass's state (as `clear()`-then-regenerate does). -/
def c7run2 : GenState :=
  generateModels msqrtFix extrudeNone shapeNone platformNone 1 [roadElem] basicFix
    cfgRoadsOnly bboxFix c7run1

/-- An element tagged both `building=yes` and `highway=residential`, with a
footprint large enough to pass the minimum-area policy. -/
def elemBoth : OSMElement :=
  ⟨11, some { building := some "yes", highway := some "residential" },
   [⟨0, 0⟩, ⟨0, 1/100⟩, ⟨1/100, 1/100⟩]⟩

/-- A configuration with every category enabled. -/
def cfgAllOn : ModelConfig :=
  ⟨1, ⟨true, 3⟩, ⟨true, 10, 3, 10⟩, ⟨true, 8, 1, []⟩, ⟨true, 1, 5, true, 5⟩,
   ⟨true⟩, ⟨true, 2⟩⟩

/-- The same configuration with buildings disabled. -/
def cfgNoBuildings : ModelConfig :=
  ⟨1, ⟨true, 3⟩, ⟨false, 10, 3, 10⟩, ⟨true, 8, 1, []⟩, ⟨true, 1, 5, true, 5⟩,
   ⟨true⟩, ⟨true, 2⟩⟩

/-- A registry record whose geometry has a NaN coordinate. -/
def mInvalid : MeshRecord :=
  ⟨1, 0, Category.building, some ⟨[JsNum.nan, JsNum.fin 0, JsNum.fin 0], none⟩,
   ⟨0, 0, 0⟩, none⟩

/-- A fully valid single-triangle export geometry. -/
def gValid : ExportGeom :=
  ⟨[JsNum.fin 0, JsNum.fin 0, JsNum.fin 0, JsNum.fin 1, JsNum.fin 0, JsNum.fin 0,
    JsNum.fin 0, JsNum.fin 1, JsNum.fin 0], some [0, 1, 2]⟩

/-- A fully valid registry record. -/
def mValid : MeshRecord := ⟨2, 0, Category.road, some gValid, ⟨0, 0, 0⟩, none⟩

/-- A valid record whose first internal coordinate is `1/3000`, exercising
the `toFixed(3)` rounding of the exporter. -/
def mThird : MeshRecord :=
  ⟨3, 0, Category.water,
   some ⟨[JsNum.fin (1/3000), JsNum.fin 0, JsNum.fin 0, JsNum.fin 1, JsNum.fin 0,
          JsNum.fin 0, JsNum.fin 0, JsNum.fin 1, JsNum.fin 0], some [0, 1, 2]⟩,
   ⟨0, 0, 0⟩, none⟩

/-- Default record used with `headD`. -/
def mrDefault : MeshRecord := ⟨0, 0, Category.terrain, none, ⟨0, 0, 0⟩, none⟩

/-- The single record generated by the horizontal road fixture. -/
def c1rec : MeshRecord :=
  ((createRoad msqrtFix ctxFix roadElem cfgRoadsOnly bboxFix stTh5).models).headD mrDefault

/-- The road record produced by the horizontal road fixture, written out:
box 10×2×4 translated to `(5, 5, 0)`, rotation `(cos, sin) = (1, 0)`. -/
def c1roadRec : MeshRecord :=
  ⟨7, 0, Category.road,
   some ⟨(addOffset (boxPositions 10 2 4) ⟨5, 5, 0⟩).map JsNum.fin, some boxIndices⟩,
   ⟨5, 5, 0⟩, some ⟨1, 0⟩⟩

/-- An extrude-kernel stand-in producing one triangle. -/
def extrudeTri : List Vec2 → ℚ → ℚ → Geom :=
  fun _ _ _ => ⟨[0, 0, 0, 1, 0, 0, 0, 1, 0], none⟩

/-- A building element with a 3-point in-bounds footprint. -/
def bldElem : OSMElement :=
  ⟨21, some { building := some "yes" }, [⟨0, 0⟩, ⟨0, 1/100⟩, ⟨1/100, 1/100⟩]⟩

/-- The record `createBuilding` produces for `bldElem` under `extrudeTri`
with terrain baseline 5. -/
def bldRec : MeshRecord :=
  ⟨21, 0, Category.building,
   some ⟨[JsNum.fin 0, JsNum.fin 5, JsNum.fin 0, JsNum.fin 1, JsNum.fin 5, JsNum.fin 0,
          JsNum.fin 0, JsNum.fin 6, JsNum.fin 0], some [0, 1, 2]⟩, ⟨0, 5, 0⟩, none⟩

/-! ## Helper lemmas -/

lemma foldl_min_le (l : List ℚ) : ∀ (x a : ℚ), a = x ∨ a ∈ l → l.foldl min x ≤ a := by
  induction l with
  | nil =>
    intro x a h
    rcases h with rfl | h
    · simp
    · cases h
  | cons y l ih =>
    intro x a h
    rw [List.foldl_cons]
    rcases h with rfl | h
    · exact le_trans (ih (min a y) (min a y) (Or.inl rfl)) (min_le_left _ _)
    · rcases List.mem_cons.mp h with rfl | h
      · exact le_trans (ih (min x a) (min x a) (Or.inl rfl)) (min_le_right _ _)
      · exact ih (min x y) a (Or.inr h)

lemma le_foldl_min (l : List ℚ) : ∀ (x c : ℚ), c ≤ x → (∀ y ∈ l, c ≤ y) → c ≤ l.foldl min x := by
  induction l with
  | nil =>
    intro x c h _
    simpa using h
  | cons y l ih =>
    intro x c hx hl
    rw [List.foldl_cons]
    exact ih (min x y) c (le_min hx (hl y (List.mem_cons_self y l)))
      (fun z hz => hl z (List.mem_cons_of_mem y hz))

lemma minQ_eq_of (l : List ℚ) (a : ℚ) (ha : a ∈ l) (hle : ∀ y ∈ l, a ≤ y) :
    minQ l = some a := by
  cases l with
  | nil => cases ha
  | cons x xs =>
    simp only [minQ, Option.some.injEq]
    refine le_antisymm (foldl_min_le xs x a ?_) (le_foldl_min xs x a (hle x (List.mem_cons_self x xs)) (fun z hz => hle z (List.mem_cons_of_mem x hz)))
    rcases List.mem_cons.mp ha with rfl | h
    · exact Or.inl rfl
    · exact Or.inr h

lemma jsTriples_length {α : Type} : ∀ (l : List α), (jsTriples l).length = l.length / 3
  | [] => by simp [jsTriples]
  | [_] => by simp [jsTriples]
  | [_, _] => by simp [jsTriples]
  | _ :: _ :: _ :: rest => by
    simp only [jsTriples, List.length_cons]
    rw [jsTriples_length rest]
    omega

lemma jsTriples_mem {α : Type} : ∀ (l : List α) (t : α × α × α),
    t ∈ jsTriples l → t.1 ∈ l ∧ t.2.1 ∈ l ∧ t.2.2 ∈ l
  | [], t, h => by simp [jsTriples] at h
  | [_], t, h => by simp [jsTriples] at h
  | [_, _], t, h => by simp [jsTriples] at h
  | x :: y :: z :: rest, t, h => by
    simp only [jsTriples, List.mem_cons] at h
    rcases h with rfl | h
    · simp
    · have hr := jsTriples_mem rest t h
      refine ⟨List.mem_cons_of_mem _ (List.mem_cons_of_mem _ (List.mem_cons_of_mem _ hr.1)), ?_, ?_⟩
      · exact List.mem_cons_of_mem _ (List.mem_cons_of_mem _ (List.mem_cons_of_mem _ hr.2.1))
      · exact List.mem_cons_of_mem _ (List.mem_cons_of_mem _ (List.mem_cons_of_mem _ hr.2.2))

lemma filterMap_eq_map_of_forall {α β : Type} (f : α → Option β) (h : α → β) :
    ∀ (l : List α), (∀ x ∈ l, f x = some (h x)) → l.filterMap f = l.map h := by
  intro l
  induction l with
  | nil => intro; simp
  | cons a l ih =>
    intro hf
    rw [List.filterMap_cons, hf a (List.mem_cons_self a l), List.map_cons,
      ih (fun x hx => hf x (List.mem_cons_of_mem a hx))]

lemma addOffset_triples (p : Vec3) : ∀ (l : List ℚ),
    jsTriples ((addOffset l p).map JsNum.fin) =
      (jsTriples l).map (fun t =>
        (JsNum.fin (t.1 + p.x), JsNum.fin (t.2.1 + p.y), JsNum.fin (t.2.2 + p.z)))
  | [] => by simp [addOffset, jsTriples]
  | [_] => by simp [addOffset, jsTriples]
  | [_, _] => by simp [addOffset, jsTriples]
  | x :: y :: z :: rest => by
    simp only [addOffset, List.map_cons, jsTriples, List.map]
    rw [addOffset_triples p rest]

lemma ebFold (l : List LatLon) : ∀ (b : BBox),
    ((l.foldl ebStep b).south ≤ b.south ∧ b.north ≤ (l.foldl ebStep b).north ∧
     (l.foldl ebStep b).west ≤ b.west ∧ b.east ≤ (l.foldl ebStep b).east) ∧
    (∀ p ∈ l, (l.foldl ebStep b).south ≤ p.lat ∧ p.lat ≤ (l.foldl ebStep b).north ∧
      (l.foldl ebStep b).west ≤ p.lon ∧ p.lon ≤ (l.foldl ebStep b).east) := by
  induction l with
  | nil =>
    intro b
    refine ⟨⟨le_refl _, le_refl _, le_refl _, le_refl _⟩, ?_⟩
    intro p hp
    cases hp
  | cons q l ih =>
    intro b
    have h := ih (ebStep b q)
    rw [List.foldl_cons]
    refine ⟨⟨le_trans h.1.1 (min_le_left _ _), le_trans (le_max_left _ _) h.1.2.1,
            le_trans h.1.2.2.1 (min_le_left _ _), le_trans (le_max_left _ _) h.1.2.2.2⟩, ?_⟩
    intro p hp
    rcases List.mem_cons.mp hp with rfl | hp
    · exact ⟨le_trans h.1.1 (min_le_right _ _), le_trans (le_max_right _ _) h.1.2.1,
             le_trans h.1.2.2.1 (min_le_right _ _), le_trans (le_max_right _ _) h.1.2.2.2⟩
    · exact h.2 p hp

lemma geomMinY_box (d hh ww : ℚ) (pos : Vec3) (idx : Option (List ℕ)) (h : 0 ≤ hh) :
    geomMinY ⟨(addOffset (boxPositions d hh ww) pos).map JsNum.fin, idx⟩ =
      some (pos.y - hh / 2) := by
  have hys : geomYs ⟨(addOffset (boxPositions d hh ww) pos).map JsNum.fin, idx⟩ =
      [-(hh/2) + pos.y, hh/2 + pos.y, hh/2 + pos.y, -(hh/2) + pos.y,
       -(hh/2) + pos.y, -(hh/2) + pos.y, hh/2 + pos.y, hh/2 + pos.y,
       hh/2 + pos.y, hh/2 + pos.y, hh/2 + pos.y, hh/2 + pos.y,
       -(hh/2) + pos.y, -(hh/2) + pos.y, -(hh/2) + pos.y, -(hh/2) + pos.y,
       -(hh/2) + pos.y, -(hh/2) + pos.y, hh/2 + pos.y, hh/2 + pos.y,
       -(hh/2) + pos.y, hh/2 + pos.y, hh/2 + pos.y, -(hh/2) + pos.y] := by
    simp [geomYs, boxPositions, addOffset, jsTriples]
  rw [geomMinY, hys]
  apply minQ_eq_of
  · simp only [List.mem_cons]
    exact Or.inl (by ring)
  · intro y hy
    simp only [List.mem_cons, List.not_mem_nil, or_false] at hy
    rcases hy with rfl | rfl | rfl | rfl | rfl | rfl | rfl | rfl | rfl | rfl | rfl | rfl |
      rfl | rfl | rfl | rfl | rfl | rfl | rfl | rfl | rfl | rfl | rfl | rfl <;> linarith

lemma createExportableGeometry_box (d hh ww : ℚ) (pos : Vec3) :
    createExportableGeometry (boxGeometry d hh ww) pos =
      some ⟨(addOffset (boxPositions d hh ww) pos).map JsNum.fin, some boxIndices⟩ := by
  have hv : validateGeometryForExport (boxGeometry d hh ww) = true := by
    simp [validateGeometryForExport, boxGeometry, boxPositions]
  rw [createExportableGeometry, if_pos hv]
  rfl

lemma roadSegmentRecord_props {msqrt : ℚ → ℚ} {eid j : ℕ} {rc : RoadTypeConfig}
    {scale th : ℚ} {p q : Vec2} {r : MeshRecord}
    (h : roadSegmentRecord msqrt eid j rc scale th p q = some r)
    (hh : 0 ≤ rc.height * scale) :
    r.position.y = th ∧ ∃ g, r.geometry = some g ∧
      geomMinY g = some (th - rc.height * scale / 2) := by
  rw [roadSegmentRecord] at h
  by_cases hd : msqrt ((q.x - p.x) ^ 2 + (q.z - p.z) ^ 2) < 1/10
  · rw [if_pos hd] at h; cases h
  · rw [if_neg hd] at h
    injection h with h
    subst h
    refine ⟨rfl,
      ⟨(addOffset (boxPositions (msqrt ((q.x - p.x) ^ 2 + (q.z - p.z) ^ 2))
          (rc.height * scale) (rc.width * scale))
          ⟨(p.x + q.x) / 2, th, (p.z + q.z) / 2⟩).map JsNum.fin, some boxIndices⟩, ?_, ?_⟩
    · exact createExportableGeometry_box _ _ _ _
    · exact geomMinY_box _ _ _ ⟨(p.x + q.x) / 2, th, (p.z + q.z) / 2⟩ _ hh

lemma roadSegments_mem {msqrt : ℚ → ℚ} {eid : ℕ} {rc : RoadTypeConfig} {scale th : ℚ} :
    ∀ (pts : List Vec2) (i : ℕ) (r : MeshRecord),
      r ∈ roadSegments msqrt eid rc scale th i pts →
      ∃ j p q, roadSegmentRecord msqrt eid j rc scale th p q = some r := by
  intro pts
  induction pts with
  | nil =>
    intro i r h
    simp [roadSegments] at h
  | cons p tail ih =>
    intro i r h
    cases tail with
    | nil => simp [roadSegments] at h
    | cons q rest =>
      simp only [roadSegments] at h
      rcases List.mem_append.mp h with h1 | h2
      · cases hseg : roadSegmentRecord msqrt eid i rc scale th p q with
        | none => rw [hseg] at h1; simp at h1
        | some r0 =>
          rw [hseg] at h1
          simp only [List.mem_singleton] at h1
          subst h1
          exact ⟨i, p, q, hseg⟩
      · exact ih (i + 1) r h2

lemma createRoad_models (msqrt : ℚ → ℚ) (ctx : Ctx) (e : OSMElement)
    (cfg : ModelConfig) (bbox : BBox) (st : GenState) :
    (createRoad msqrt ctx e cfg bbox st).models = st.models ∨
    (createRoad msqrt ctx e cfg bbox st).models =
      st.models ++ roadSegments msqrt e.eid (roadConfigFor cfg (e.tags.bind Tags.highway))
        ctx.scale st.terrainHeight 0 (filterProject ctx bbox e.geometry) := by
  rw [createRoad]
  by_cases h1 : e.geometry.length < 2
  · rw [if_pos h1]; left; rfl
  · rw [if_neg h1]
    by_cases h2 : (filterProject ctx bbox e.geometry).length < 2
    · rw [if_pos h2]; left; rfl
    · rw [if_neg h2]; right; rfl

lemma buildingData_pos {extrude : List Vec2 → ℚ → ℚ → Geom} {ctx : Ctx}
    {e : OSMElement} {cfg : ModelConfig} {bbox : BBox} {th : ℚ} {g : Geom}
    {r : MeshRecord} (h : buildingData extrude ctx e cfg bbox th = some (g, r)) :
    r.position = ⟨0, th, 0⟩ := by
  rw [buildingData] at h
  by_cases h1 : e.geometry.length < 3
  · rw [if_pos h1] at h; cases h
  · rw [if_neg h1] at h
    by_cases h2 : (filterProject ctx bbox e.geometry).length < 3
    · rw [if_pos h2] at h; cases h
    · rw [if_neg h2] at h
      injection h with h
      cases h
      rfl

lemma createBuilding_models (extrude : List Vec2 → ℚ → ℚ → Geom) (ctx : Ctx)
    (e : OSMElement) (cfg : ModelConfig) (bbox : BBox) (st : GenState) :
    (createBuilding extrude ctx e cfg bbox st).models = st.models ∨
    ∃ g r, buildingData extrude ctx e cfg bbox st.terrainHeight = some (g, r) ∧
      (createBuilding extrude ctx e cfg bbox st).models = st.models ++ [r] := by
  cases hb : buildingData extrude ctx e cfg bbox st.terrainHeight with
  | none => left; rw [createBuilding, hb]
  | some gr =>
    obtain ⟨g0, r0⟩ := gr
    right
    refine ⟨g0, r0, rfl, ?_⟩
    rw [createBuilding, hb]

lemma validateGeometry_parts {g : ExportGeom} (hv : validateGeometry (some g) = true) :
    g.positions.length ≠ 0 ∧ g.positions.length % 3 = 0 ∧
    ∀ x ∈ g.positions, x.isFin = true := by
  simp only [validateGeometry, Bool.and_eq_true, decide_eq_true_eq, List.all_eq_true] at hv
  exact ⟨hv.1.1, hv.1.2, hv.2⟩

lemma modelVertices_of_valid (g : ExportGeom) (hv : validateGeometry (some g) = true) :
    modelVertices g = (jsTriples g.positions).map (fun t =>
      (⟨toFixed3 (finPart t.1 * 1000), toFixed3 (finPart t.2.1 * 1000),
        toFixed3 (finPart t.2.2 * 1000)⟩ : Vtx)) := by
  have hall := (validateGeometry_parts hv).2.2
  rw [modelVertices]
  apply filterMap_eq_map_of_forall
  intro t ht
  have hm := jsTriples_mem g.positions t ht
  have h1 := hall t.1 hm.1
  have h2 := hall t.2.1 hm.2.1
  have h3 := hall t.2.2 hm.2.2
  rcases t with ⟨x, y, z⟩
  cases x <;> cases y <;> cases z <;> simp_all [JsNum.isFin, finPart]

lemma modelVertices_length (g : ExportGeom) (hv : validateGeometry (some g) = true) :
    (modelVertices g).length = g.positions.length / 3 := by
  rw [modelVertices_of_valid g hv, List.length_map, jsTriples_length]

lemma modelTriangles_ok {g : ExportGeom} {t : Tri} (ht : t ∈ modelTriangles g) :
    t.a ≠ t.b ∧ t.b ≠ t.c ∧ t.a ≠ t.c ∧
    t.a < g.positions.length / 3 ∧ t.b < g.positions.length / 3 ∧
    t.c < g.positions.length / 3 := by
  simp only [modelTriangles] at ht
  cases hidx : g.index with
  | some idx =>
    rw [hidx] at ht
    rcases List.mem_filterMap.mp ht with ⟨s, _, heq⟩
    by_cases hc : s.1 < g.positions.length / 3 ∧ s.2.1 < g.positions.length / 3 ∧
        s.2.2 < g.positions.length / 3 ∧ s.1 ≠ s.2.1 ∧ s.2.1 ≠ s.2.2 ∧ s.1 ≠ s.2.2
    · rw [if_pos hc] at heq
      injection heq with heq
      subst heq
      exact ⟨hc.2.2.2.1, hc.2.2.2.2.1, hc.2.2.2.2.2, hc.1, hc.2.1, hc.2.2.1⟩
    · rw [if_neg hc] at heq; cases heq
  | none =>
    rw [hidx] at ht
    simp only [seqTriangles, List.mem_map, List.mem_range] at ht
    obtain ⟨k, hk, rfl⟩ := ht
    refine ⟨?_, ?_, ?_, ?_, ?_, ?_⟩
    · show 3 * k ≠ 3 * k + 1
      omega
    · show 3 * k + 1 ≠ 3 * k + 2
      omega
    · show 3 * k ≠ 3 * k + 2
      omega
    · show 3 * k < g.positions.length / 3
      omega
    · show 3 * k + 1 < g.positions.length / 3
      omega
    · show 3 * k + 2 < g.positions.length / 3
      omega

lemma gen3mfStep_skip (types : List Category) (acc : List Obj3MF × List ℕ × ℕ)
    (im : ℕ × MeshRecord) (h : validateGeometry im.2.geometry = false) :
    gen3mfStep types acc im = (acc.1, acc.2.1 ++ [im.1], acc.2.2) := by
  rw [gen3mfStep]
  cases hg : im.2.geometry with
  | none => rfl
  | some g =>
    rw [hg] at h
    dsimp only
    rw [if_neg (by simp [h])]

lemma gen3mfStep_empty (types : List Category) (acc : List Obj3MF × List ℕ × ℕ)
    (im : ℕ × MeshRecord) (g : ExportGeom) (hg : im.2.geometry = some g)
    (hv : validateGeometry (some g) = true)
    (hne : ¬(modelVertices g ≠ [] ∧ modelTriangles g ≠ [])) :
    gen3mfStep types acc im = (acc.1, acc.2.1 ++ [im.1], acc.2.2) := by
  rw [gen3mfStep, hg]
  dsimp only
  rw [if_pos hv, if_neg hne]

lemma gen3mfStep_emit (types : List Category) (acc : List Obj3MF × List ℕ × ℕ)
    (im : ℕ × MeshRecord) (g : ExportGeom) (hg : im.2.geometry = some g)
    (hv : validateGeometry (some g) = true) (hvs : modelVertices g ≠ [])
    (hts : modelTriangles g ≠ []) :
    gen3mfStep types acc im =
      (acc.1 ++ [⟨acc.2.2, materialIdFor types im.2.rtype, modelVertices g, modelTriangles g⟩],
       acc.2.1, acc.2.2 + 1) := by
  rw [gen3mfStep, hg]
  dsimp only
  rw [if_pos hv, if_pos ⟨hvs, hts⟩]

lemma gen3mfFold_inv (types : List Category) (P : Obj3MF → Prop)
    (hP : ∀ (oid : ℕ) (m : MeshRecord) (g : ExportGeom), m.geometry = some g →
      validateGeometry (some g) = true → modelVertices g ≠ [] → modelTriangles g ≠ [] →
      P ⟨oid, materialIdFor types m.rtype, modelVertices g, modelTriangles g⟩) :
    ∀ (L : List (ℕ × MeshRecord)) (acc : List Obj3MF × List ℕ × ℕ),
      (∀ o ∈ acc.1, P o) → ∀ o ∈ (L.foldl (gen3mfStep types) acc).1, P o := by
  intro L
  induction L with
  | nil => intro acc h; exact h
  | cons im L ih =>
    intro acc hacc
    rw [List.foldl_cons]
    apply ih
    intro o ho
    cases hg : im.2.geometry with
    | none =>
      rw [gen3mfStep_skip types acc im (by rw [hg]; rfl)] at ho
      exact hacc o ho
    | some g =>
      by_cases hv : validateGeometry (some g) = true
      · by_cases hne : modelVertices g ≠ [] ∧ modelTriangles g ≠ []
        · rw [gen3mfStep_emit types acc im g hg hv hne.1 hne.2] at ho
          rcases List.mem_append.mp ho with h1 | h2
          · exact hacc o h1
          · rcases List.mem_singleton.mp h2 with rfl
            exact hP acc.2.2 im.2 g hg hv hne.1 hne.2
        · rw [gen3mfStep_empty types acc im g hg hv hne] at ho
          exact hacc o ho
      · have hfalse : validateGeometry im.2.geometry = false := by
          rw [hg]
          exact Bool.eq_false_iff.mpr hv
        rw [gen3mfStep_skip types acc im hfalse] at ho
        exact hacc o ho

lemma generated_object_spec {models : List MeshRecord} {o : Obj3MF}
    (ho : o ∈ (generate3MFContent models).objects) :
    ∃ g : ExportGeom, validateGeometry (some g) = true ∧
      o.vertices = modelVertices g ∧ o.triangles = modelTriangles g := by
  apply gen3mfFold_inv (dedupKeepFirst (models.map (fun m => m.rtype)))
    (fun o => ∃ g, validateGeometry (some g) = true ∧
      o.vertices = modelVertices g ∧ o.triangles = modelTriangles g)
    (fun oid m g _ hv hvs hts => ⟨g, hv, rfl, rfl⟩)
    models.enum ([], [], 1) (by intro o ho; cases ho)
  simpa [generate3MFContent] using ho

lemma getElementBounds_mem {g : List LatLon} {p : LatLon} (hp : p ∈ g) :
    (getElementBounds g).south ≤ p.lat ∧ p.lat ≤ (getElementBounds g).north ∧
    (getElementBounds g).west ≤ p.lon ∧ p.lon ≤ (getElementBounds g).east := by
  cases g with
  | nil => cases hp
  | cons p0 rest =>
    rcases List.mem_cons.mp hp with rfl | hp
    · have h := (ebFold rest ⟨p.lat, p.lat, p.lon, p.lon⟩).1
      exact ⟨h.1, h.2.1, h.2.2.1, h.2.2.2⟩
    · exact (ebFold rest ⟨p0.lat, p0.lat, p0.lon, p0.lon⟩).2 p hp

/-! ## Claim theorems -/

/-- C1 counterexample: on a concrete in-bounds road element (segment of
length 10, road class height 2, scale 1) with terrain baseline 5, the
generated road-segment record has its vertical centre at the baseline
(`position.y = 5`) and its lowest exported vertex Y equal to 4 — one half
road-height *below* `TerrainBaseline`, not flush with it as the claim
states. -/
theorem c1_counterexample :
    (createRoad msqrtFix ctxFix roadElem cfgRoadsOnly bboxFix stTh5).models.map
      (fun r => (r.rtype, r.position.y, r.geometry.map geomMinY)) =
      [(Category.road, 5, some (some 4))] ∧ (4 : ℚ) ≠ 5 := by
  constructor
  · norm_num [createRoad, filterProject, latLonToLocal, isPointInBounds, roadElem, ctxFix,
      bboxFix, cfgRoadsOnly, stTh5, roadConfigFor, roadSegments, roadSegmentRecord, msqrtFix,
      boxGeometry, boxPositions, boxIndices, createExportableGeometry, validateGeometryForExport,
      addOffset, geomMinY, geomYs, jsTriples, minQ, applyGlobalScale, jsOr, List.lookup,
      List.filterMap_cons, List.foldl_cons, min_def]
  · norm_num

/-- C1 (amended): every road-segment record has its vertical centre at the
terrain baseline — `position.y = TerrainBaseline` and lowest exported
vertex Y equal to `TerrainBaseline - roadHeight * scale / 2` (sunken by
half the road height, not flush); every building record is translated by
`(0, TerrainBaseline, 0)`, placing the extrusion's base plane exactly at
the baseline. -/
theorem c1_amended :
    (∀ (msqrt : ℚ → ℚ) (ctx : Ctx) (e : OSMElement) (cfg : ModelConfig) (bbox : BBox)
       (st : GenState) (r : MeshRecord),
       0 ≤ (roadConfigFor cfg (e.tags.bind Tags.highway)).height * ctx.scale →
       r ∈ (createRoad msqrt ctx e cfg bbox st).models → r ∉ st.models →
       r.position.y = st.terrainHeight ∧ ∃ g, r.geometry = some g ∧
         geomMinY g = some (st.terrainHeight -
           (roadConfigFor cfg (e.tags.bind Tags.highway)).height * ctx.scale / 2)) ∧
    (∀ (extrude : List Vec2 → ℚ → ℚ → Geom) (ctx : Ctx) (e : OSMElement) (cfg : ModelConfig)
       (bbox : BBox) (st : GenState) (r : MeshRecord),
       r ∈ (createBuilding extrude ctx e cfg bbox st).models → r ∉ st.models →
       r.position = ⟨0, st.terrainHeight, 0⟩) := by
  constructor
  · intro msqrt ctx e cfg bbox st r hh hr hnotin
    rcases createRoad_models msqrt ctx e cfg bbox st with hm | hm
    · rw [hm] at hr
      exact absurd hr hnotin
    · rw [hm] at hr
      rcases List.mem_append.mp hr with h1 | h2
      · exact absurd h1 hnotin
      · obtain ⟨j, p, q, hseg⟩ := roadSegments_mem _ _ _ h2
        exact roadSegmentRecord_props hseg hh
  · intro extrude ctx e cfg bbox st r hr hnotin
    rcases createBuilding_models extrude ctx e cfg bbox st with hm | ⟨g, r0, hbd, hm⟩
    · rw [hm] at hr
      exact absurd hr hnotin
    · rw [hm] at hr
      rcases List.mem_append.mp hr with h1 | h2
      · exact absurd h1 hnotin
      · rcases List.mem_singleton.mp h2 with rfl
        exact buildingData_pos hbd

/-- C1 (amended) witness: the amended theorem applied to the concrete road
fixture (baseline 5, road height 2: base at 4) and to a concrete building
record (position `(0, 5, 0)`). -/
theorem c1_amended_witness :
    (c1roadRec.position.y = 5 ∧ ∃ g, c1roadRec.geometry = some g ∧ geomMinY g = some 4) ∧
    bldRec.position = ⟨0, 5, 0⟩ := by
  constructor
  · have h := c1_amended.1 msqrtFix ctxFix roadElem cfgRoadsOnly bboxFix stTh5 c1roadRec
      (by norm_num [roadConfigFor, cfgRoadsOnly, roadElem, ctxFix, applyGlobalScale, jsOr,
        List.lookup])
      (by norm_num [createRoad, filterProject, latLonToLocal, isPointInBounds, roadElem, ctxFix,
        bboxFix, cfgRoadsOnly, stTh5, roadConfigFor, roadSegments, roadSegmentRecord, msqrtFix,
        boxGeometry, boxPositions, boxIndices, createExportableGeometry,
        validateGeometryForExport, addOffset, applyGlobalScale, jsOr, List.lookup,
        List.filterMap_cons, List.foldl_cons, c1roadRec])
      (by simp [stTh5])
    refine ⟨h.1, ?_⟩
    obtain ⟨g, hg, hmin⟩ := h.2
    refine ⟨g, hg, ?_⟩
    rw [hmin]
    norm_num [roadConfigFor, cfgRoadsOnly, roadElem, applyGlobalScale, jsOr, List.lookup,
      ctxFix, stTh5]
  · exact c1_amended.2 extrudeTri ctxFix bldElem cfgAllOn bboxFix stTh5 bldRec
      (by norm_num [createBuilding, buildingData, filterProject, latLonToLocal, isPointInBounds,
        bldElem, ctxFix, bboxFix, cfgAllOn, stTh5, buildingHeight, applyGlobalScale, jsOr,
        extrudeTri, createExportableGeometry, validateGeometryForExport, addOffset,
        statsOfRecords, updateModelStats, rawGeomStats, bldRec, List.range_succ])
      (by simp [stTh5])

/-- C2: for a registry holding one record with invalid geometry (NaN or
non-finite coordinate, position length not a multiple of 3, or no position
attribute — all the cases `validateGeometry` rejects) and one fully valid
record, the generated 3MF contains exactly the valid record's object (id 1,
its vertices and triangles), one build item, and a warning for the invalid
record's index — in either input order, and the (total) generator never
throws. -/
theorem c2_export_robustness :
    ∀ (m1 m2 : MeshRecord) (g : ExportGeom),
      validateGeometry m1.geometry = false →
      m2.geometry = some g → validateGeometry (some g) = true →
      modelVertices g ≠ [] → modelTriangles g ≠ [] →
      ((generate3MFContent [m1, m2]).objects.map (fun o => (o.oid, o.vertices, o.triangles)) =
         [(1, modelVertices g, modelTriangles g)] ∧
       (generate3MFContent [m1, m2]).warnings = [0] ∧
       (generate3MFContent [m1, m2]).buildItems = [1]) ∧
      ((generate3MFContent [m2, m1]).objects.map (fun o => (o.oid, o.vertices, o.triangles)) =
         [(1, modelVertices g, modelTriangles g)] ∧
       (generate3MFContent [m2, m1]).warnings = [1] ∧
       (generate3MFContent [m2, m1]).buildItems = [1]) := by
  intro m1 m2 g h1 hg2 hv hvs hts
  constructor
  · have hgen : generate3MFContent [m1, m2] =
        ⟨"millimeter",
         [⟨1, materialIdFor (dedupKeepFirst ([m1, m2].map (fun m => m.rtype))) m2.rtype,
           modelVertices g, modelTriangles g⟩], [1], [0]⟩ := by
      simp only [generate3MFContent]
      rw [show ([m1, m2] : List MeshRecord).enum = [(0, m1), (1, m2)] from rfl]
      rw [List.foldl_cons, gen3mfStep_skip _ _ _ h1]
      rw [show ((([] : List Obj3MF), ([] : List ℕ), 1).1,
            (([] : List Obj3MF), ([] : List ℕ), 1).2.1 ++ [(0, m1).1],
            (([] : List Obj3MF), ([] : List ℕ), 1).2.2) =
          ((([] : List Obj3MF), [0], 1) : List Obj3MF × List ℕ × ℕ) from rfl]
      rw [List.foldl_cons, gen3mfStep_emit _ _ _ g hg2 hv hvs hts, List.foldl_nil]
      rfl
    rw [hgen]
    refine ⟨by simp, rfl, rfl⟩
  · have hgen : generate3MFContent [m2, m1] =
        ⟨"millimeter",
         [⟨1, materialIdFor (dedupKeepFirst ([m2, m1].map (fun m => m.rtype))) m2.rtype,
           modelVertices g, modelTriangles g⟩], [1], [1]⟩ := by
      simp only [generate3MFContent]
      rw [show ([m2, m1] : List MeshRecord).enum = [(0, m2), (1, m1)] from rfl]
      rw [List.foldl_cons, gen3mfStep_emit _ _ _ g hg2 hv hvs hts]
      rw [List.foldl_cons, gen3mfStep_skip _ _ _ h1, List.foldl_nil]
      rfl
    rw [hgen]
    refine ⟨by simp, rfl, rfl⟩

/-- C2 witness: the robustness theorem at a concrete NaN record and a
concrete valid triangle record. -/
theorem c2_export_robustness_witness :
    (generate3MFContent [mInvalid, mValid]).objects.map (fun o => (o.oid, o.vertices, o.triangles)) =
      [(1, modelVertices gValid, modelTriangles gValid)] ∧
    (generate3MFContent [mInvalid, mValid]).warnings = [0] := by
  have h := c2_export_robustness mInvalid mValid gValid
    (by simp [validateGeometry, mInvalid, JsNum.isFin])
    rfl
    (by simp [validateGeometry, gValid, JsNum.isFin])
    (by simp [modelVertices, gValid, jsTriples, List.filterMap_cons])
    (by simp [modelTriangles, gValid, jsTriples, List.filterMap_cons])
  exact ⟨h.1.1, h.1.2.1⟩

/-- C3 counterexample: one and the same element — carrying both a
`building` tag and a `highway` tag — is dispatched as a Building when all
categories are enabled, but as a Road when buildings are disabled.  The
category assigned before building therefore depends on the per-category
enable flags, not exclusively on the tags, and a building+highway element
is not always processed as a Building. -/
theorem c3_counterexample :
    elemBoth.tags = some { building := some "yes", highway := some "residential" } ∧
    elementBranch elemBoth cfgAllOn = some Category.building ∧
    elementBranch elemBoth cfgNoBuildings = some Category.road := by
  have hy : ¬(("yes" : String) = "") := by decide
  have hr : ¬(("residential" : String) = "") := by decide
  have ha : |(1 : ℚ)/10000| = 1/10000 := abs_of_pos (by norm_num)
  refine ⟨rfl, ?_, ?_⟩ <;>
    norm_num [elementBranch, elemBoth, cfgAllOn, cfgNoBuildings, truthy, shouldIgnoreBuilding,
      calculatePolygonArea, consecPairs, jsOr, hy, hr, ha]

/-- C3 (amended): when every per-category enable flag is on and the element
is not dropped by the minimum-area building policy, the dispatch of
`processElement` agrees with the pure tag-precedence classifier
(Building > Road > Bridge > Water > Vegetation, first match wins); in
general the result depends on the tags, the enable flags, and the building
area threshold. -/
theorem c3_amended :
    ∀ (e : OSMElement) (t : Tags) (cfg : ModelConfig),
      e.tags = some t →
      cfg.buildings.enabled = true → cfg.roads.enabled = true → cfg.bridges.enabled = true →
      cfg.water.enabled = true → cfg.vegetation.enabled = true →
      (truthy t.building = true → shouldIgnoreBuilding e cfg = false) →
      elementBranch e cfg = specClassify t := by
  intro e t cfg ht h1 h2 h3 h4 h5 hb
  rw [elementBranch, ht, specClassify]
  by_cases hB : truthy t.building = true
  · simp [hB, h1, hb hB]
  · have hB0 : truthy t.building = false := Bool.eq_false_iff.mpr hB
    simp [hB0, h1, h2, h3, h4, h5]

/-- C3 (amended) witness: the amended agreement at the concrete
building+highway element with everything enabled. -/
theorem c3_amended_witness :
    elementBranch elemBoth cfgAllOn =
      specClassify { building := some "yes", highway := some "residential" } :=
  c3_amended elemBoth { building := some "yes", highway := some "residential" } cfgAllOn
    rfl rfl rfl rfl rfl rfl
    (fun _ => by
      have ha : |(1 : ℚ)/10000| = 1/10000 := abs_of_pos (by norm_num)
      norm_num [shouldIgnoreBuilding, elemBoth, calculatePolygonArea, consecPairs, jsOr,
        cfgAllOn, ha])

/-- C9: dispatch is gated by the enable flags and precedence runs only over
enabled categories: any element with truthy `building` and `highway` tags
is dispatched as a Road (not dropped) whenever buildings are disabled and
roads are enabled. -/
theorem c9_enable_flag_dispatch :
    ∀ (e : OSMElement) (t : Tags) (cfg : ModelConfig),
      e.tags = some t → truthy t.building = true → truthy t.highway = true →
      cfg.buildings.enabled = false → cfg.roads.enabled = true →
      elementBranch e cfg = some Category.road := by
  intro e t cfg ht hb hh h1 h2
  rw [elementBranch, ht]
  simp [hb, hh, h1, h2]

/-- C9 witness: the building+highway element is built as a Road under the
buildings-off, roads-on configuration. -/
theorem c9_enable_flag_dispatch_witness :
    elementBranch elemBoth cfgNoBuildings = some Category.road :=
  c9_enable_flag_dispatch elemBoth
    { building := some "yes", highway := some "residential" } cfgNoBuildings
    rfl (by decide) (by decide) rfl rfl

/-- C4 counterexample: a record whose first internal coordinate is `1/3000`
is written into the 3MF document as `0.333` (the value `333/1000`), which
is *not* equal to the internal coordinate multiplied by 1000 (`1/3`): the
exporter additionally rounds to 3 decimal places (`toFixed(3)`). -/
theorem c4_counterexample :
    ((generate3MFContent [mThird]).objects.map (fun o => o.vertices.head?)) =
      [some ⟨333/1000, 0, 0⟩] ∧ ((333 : ℚ)/1000) ≠ (1/3000) * 1000 := by
  constructor
  · norm_num [generate3MFContent, gen3mfStep, mThird, validateGeometry, JsNum.isFin,
      modelVertices, modelTriangles, jsTriples, List.filterMap_cons, toFixed3, roundAway,
      dedupKeepFirst, materialIdFor, List.range_succ, List.enum, List.enumFrom, seqTriangles,
      List.indexOf?, List.findIdx?]
    rw [if_neg (by simp)]
    simp
  · norm_num

/-- C4 (amended): the document declares `unit="millimeter"`, and every
vertex written for a validated record equals the corresponding internal
record coordinate multiplied by the fixed factor 1000 *and rounded to 3
decimal places* (`toFixed(3)`), applied at encode time; no validated
coordinate is dropped or rescaled otherwise. -/
theorem c4_amended :
    (∀ (models : List MeshRecord), (generate3MFContent models).unit = "millimeter") ∧
    (∀ (g : ExportGeom), validateGeometry (some g) = true →
      modelVertices g = (jsTriples g.positions).map (fun t =>
        (⟨toFixed3 (finPart t.1 * 1000), toFixed3 (finPart t.2.1 * 1000),
          toFixed3 (finPart t.2.2 * 1000)⟩ : Vtx))) :=
  ⟨fun _ => rfl, fun g hv => modelVertices_of_valid g hv⟩

/-- C4 (amended) witness: the unit attribute and the scaled-and-rounded
vertex list of the concrete valid record. -/
theorem c4_amended_witness :
    (generate3MFContent []).unit = "millimeter" ∧
    modelVertices gValid = [⟨0, 0, 0⟩, ⟨1000, 0, 0⟩, ⟨0, 1000, 0⟩] := by
  refine ⟨c4_amended.1 [], ?_⟩
  rw [c4_amended.2 gValid (by simp [validateGeometry, gValid, JsNum.isFin])]
  norm_num [gValid, jsTriples, finPart, toFixed3, roundAway]

/-- C5 counterexample: for a road segment running along +Z the record
stores the quarter-turn rotation (`(cos, sin) = (0, 1)`), but its exported
geometry's first vertex is the builder-local box corner `(5, -1, -2)`
merely *translated* by the position `(0, 0, 5)`, giving `(5, -1, 3)` —
whereas the record's full local transform (rotation then translation, as
the claim states) would give `(-2, -1, 0)`.  The exported buffers are
therefore not in the correctly oriented world frame. -/
theorem c5_counterexample :
    ((createRoad msqrtFix ctxFix roadElemV cfgRoadsOnly bboxFix stTh0).models.map
      (fun r => (r.rotation, r.position, r.geometry.map (fun g => g.positions.take 3)))) =
      [(some ⟨0, 1⟩, ⟨0, 0, 5⟩, some [JsNum.fin 5, JsNum.fin (-1), JsNum.fin 3])] ∧
    (boxGeometry 10 2 4).positions.take 3 = [5, -1, -2] ∧
    specFullTransformVertex ⟨0, 1⟩ ⟨0, 0, 5⟩ ⟨5, -1, -2⟩ = ⟨-2, -1, 0⟩ ∧
    ([JsNum.fin (5 : ℚ), JsNum.fin (-1), JsNum.fin 3] : List JsNum) ≠
      [JsNum.fin (-2), JsNum.fin (-1), JsNum.fin 0] := by
  refine ⟨?_, ?_, ?_, ?_⟩
  · norm_num [createRoad, filterProject, latLonToLocal, isPointInBounds, roadElemV, ctxFix,
      bboxFix, cfgRoadsOnly, stTh0, roadConfigFor, roadSegments, roadSegmentRecord, msqrtFix,
      boxGeometry, boxPositions, boxIndices, createExportableGeometry, validateGeometryForExport,
      addOffset, applyGlobalScale, jsOr, List.lookup, List.filterMap_cons, List.foldl_cons]
  · norm_num [boxGeometry, boxPositions]
  · norm_num [specFullTransformVertex]
  · simp only [ne_eq, List.cons.injEq, JsNum.fin.injEq]
    norm_num

/-- C5 (amended): `createExportableGeometry` applies only the position
translation to each vertex — every exported vertex equals the builder-local
vertex plus the record position, componentwise; the stored rotation is not
applied to the exported buffers. -/
theorem c5_amended :
    ∀ (g : Geom) (p : Vec3) (eg : ExportGeom),
      createExportableGeometry g p = some eg →
      jsTriples eg.positions = (jsTriples g.positions).map (fun t =>
        (JsNum.fin (t.1 + p.x), JsNum.fin (t.2.1 + p.y), JsNum.fin (t.2.2 + p.z))) := by
  intro g p eg h
  rw [createExportableGeometry] at h
  by_cases hv : validateGeometryForExport g = true
  · rw [if_pos hv] at h
    injection h with h
    rw [← h]
    exact addOffset_triples p g.positions
  · rw [if_neg hv] at h
    cases h

/-- C5 (amended) witness: translation-only export of a concrete
single-vertex geometry. -/
theorem c5_amended_witness :
    jsTriples ((⟨[JsNum.fin 11, JsNum.fin 22, JsNum.fin 33], some [0]⟩ : ExportGeom)).positions =
      (jsTriples [(1 : ℚ), 2, 3]).map (fun t =>
        (JsNum.fin (t.1 + (10 : ℚ)), JsNum.fin (t.2.1 + (20 : ℚ)), JsNum.fin (t.2.2 + (30 : ℚ)))) := by
  have h := c5_amended ⟨[1, 2, 3], none⟩ ⟨10, 20, 30⟩
    ⟨[JsNum.fin 11, JsNum.fin 22, JsNum.fin 33], some [0]⟩
    (by norm_num [createExportableGeometry, validateGeometryForExport, addOffset,
      List.range_succ])
  exact h

/-- C6 counterexample: for a segment of distance 10 with pillar spacing 5,
`floor(distance / spacing) = 2` but the loop runs `i = 0 … pillarCount`
inclusive and emits **3** pillars; and with deck centre `bridgeY = 5/2`
(bridge height × scale = 1, so the deck underside is at 2), every pillar's
top is `5/2` — the deck's vertical *centre*, not its underside. -/
theorem c6_counterexample :
    (addBridgePillars ⟨0, 0⟩ ⟨10, 0⟩ ⟨5, 1⟩ 10 (5/2) 0).length = 3 ∧
    (⌊(10 : ℚ) / 5⌋ = 2 ∧ (3 : ℕ) ≠ 2) ∧
    (addBridgePillars ⟨0, 0⟩ ⟨10, 0⟩ ⟨5, 1⟩ 10 (5/2) 0).map
      (fun pl => pl.yCenter + pl.height / 2) = [5/2, 5/2, 5/2] ∧
    ((5 : ℚ)/2) ≠ 2 := by
  refine ⟨?_, ⟨by norm_num, by norm_num⟩, ?_, by norm_num⟩ <;>
    norm_num [addBridgePillars, List.range_succ, show Int.toNat 2 = 2 from rfl]

/-- C6 (amended): with positive spacing and non-negative distance,
`addBridgePillars` emits `floor(distance / spacing) + 1` pillars, evenly
spaced over the segment (pillar `i` at parameter `i / max(pillarCount, 1)`,
covering both endpoints), and each pillar spans vertically from
`TerrainBaseline` up to the bridge deck's centre `bridgeY` (which sits half
the deck height above the underside). -/
theorem c6_amended :
    ∀ (p q : Vec2) (pc : PillarConfig) (d bridgeY th : ℚ),
      0 < pc.spacing → 0 ≤ d →
      (addBridgePillars p q pc d bridgeY th).length = (⌊d / pc.spacing⌋).toNat + 1 ∧
      ∀ (i : ℕ) (hi : i < (addBridgePillars p q pc d bridgeY th).length),
        ((addBridgePillars p q pc d bridgeY th).get ⟨i, hi⟩).x =
          p.x + (q.x - p.x) * ((i : ℚ) / max ((⌊d / pc.spacing⌋ : ℤ) : ℚ) 1) ∧
        ((addBridgePillars p q pc d bridgeY th).get ⟨i, hi⟩).z =
          p.z + (q.z - p.z) * ((i : ℚ) / max ((⌊d / pc.spacing⌋ : ℤ) : ℚ) 1) ∧
        ((addBridgePillars p q pc d bridgeY th).get ⟨i, hi⟩).yCenter -
          ((addBridgePillars p q pc d bridgeY th).get ⟨i, hi⟩).height / 2 = th ∧
        ((addBridgePillars p q pc d bridgeY th).get ⟨i, hi⟩).yCenter +
          ((addBridgePillars p q pc d bridgeY th).get ⟨i, hi⟩).height / 2 = bridgeY := by
  intro p q pc d bY th hs hd
  have hnn : ¬(⌊d / pc.spacing⌋ < 0) := by
    simp only [not_lt]
    exact Int.floor_nonneg.mpr (div_nonneg hd hs.le)
  have hrw : addBridgePillars p q pc d bY th =
      (List.range ((⌊d / pc.spacing⌋).toNat + 1)).map (fun (i : ℕ) =>
        ⟨p.x + (q.x - p.x) * ((i : ℚ) / max ((⌊d / pc.spacing⌋ : ℤ) : ℚ) 1),
         th + (bY - th) / 2,
         p.z + (q.z - p.z) * ((i : ℚ) / max ((⌊d / pc.spacing⌋ : ℤ) : ℚ) 1),
         bY - th⟩) := by
    rw [addBridgePillars, if_neg hnn]
  rw [hrw]
  constructor
  · simp
  · intro i hi
    have hget : ((List.range ((⌊d / pc.spacing⌋).toNat + 1)).map (fun (i : ℕ) =>
        (⟨p.x + (q.x - p.x) * ((i : ℚ) / max ((⌊d / pc.spacing⌋ : ℤ) : ℚ) 1),
         th + (bY - th) / 2,
         p.z + (q.z - p.z) * ((i : ℚ) / max ((⌊d / pc.spacing⌋ : ℤ) : ℚ) 1),
         bY - th⟩ : Pillar))).get ⟨i, hi⟩ =
        ⟨p.x + (q.x - p.x) * ((i : ℚ) / max ((⌊d / pc.spacing⌋ : ℤ) : ℚ) 1),
         th + (bY - th) / 2,
         p.z + (q.z - p.z) * ((i : ℚ) / max ((⌊d / pc.spacing⌋ : ℤ) : ℚ) 1),
         bY - th⟩ := by
      simp [List.get_eq_getElem, List.getElem_map, List.getElem_range]
    rw [hget]
    refine ⟨rfl, rfl, by ring, by ring⟩

/-- C6 (amended) witness: the pillar count formula at distance 10 and
spacing 5 — the amended theorem instantiated with its hypotheses
discharged. -/
theorem c6_amended_witness :
    (addBridgePillars ⟨0, 0⟩ ⟨20, 0⟩ ⟨5, 2⟩ 10 7 1).length = (⌊(10 : ℚ) / 5⌋).toNat + 1 :=
  (c6_amended ⟨0, 0⟩ ⟨20, 0⟩ ⟨5, 2⟩ 10 7 1 (by norm_num) (by norm_num)).1

/-- C7: `clear()` empties the registry but never resets `modelStats`, so
the statistics accumulate across regenerations.  On a fixed input (one road
element), the first pass reports 24 vertices / 12 triangles and 1 road; the
second pass with identical inputs — although it rebuilds an identical
1-record registry — reports 48 / 24 and 2 roads: the reported totals of the
second regeneration are double, not equal to, those of the first. -/
theorem c7_stats_accumulation :
    getModelStats c7run1 = ⟨0, 1, 0, 0, 0, 24, 12⟩ ∧
    getModelStats c7run2 = ⟨0, 2, 0, 0, 0, 48, 24⟩ ∧
    c7run1.models.length = 1 ∧ c7run2.models.length = 1 ∧
    getModelStats c7run2 ≠ getModelStats c7run1 := by
  have hy : ¬(("residential" : String) = "") := by decide
  have h1 : getModelStats c7run1 = ⟨0, 1, 0, 0, 0, 24, 12⟩ := by
    norm_num [c7run1, getModelStats, generateModels, clearModels, generateBasePlatform,
      processElement, elementBranch, truthy, bumpCounter, createRoad, filterProject,
      latLonToLocal, isPointInBounds, isElementInBounds, getElementBounds, ebStep,
      boundsIntersect, lineIntersectsBounds, consecPairs, areaNotNo, roadConfigFor,
      roadSegments, roadSegmentRecord, msqrtFix, boxGeometry, boxPositions, boxIndices,
      createExportableGeometry, validateGeometryForExport, addOffset, statsOfRecords,
      updateModelStats, applyGlobalScale, jsOr, List.lookup, Stats.zero, basicFix,
      cfgRoadsOnly, bboxFix, roadElem, List.filterMap_cons, List.foldl_cons, hy]
  have h2 : getModelStats c7run2 = ⟨0, 2, 0, 0, 0, 48, 24⟩ := by
    norm_num [c7run1, c7run2, getModelStats, generateModels, clearModels, generateBasePlatform,
      processElement, elementBranch, truthy, bumpCounter, createRoad, filterProject,
      latLonToLocal, isPointInBounds, isElementInBounds, getElementBounds, ebStep,
      boundsIntersect, lineIntersectsBounds, consecPairs, areaNotNo, roadConfigFor,
      roadSegments, roadSegmentRecord, msqrtFix, boxGeometry, boxPositions, boxIndices,
      createExportableGeometry, validateGeometryForExport, addOffset, statsOfRecords,
      updateModelStats, applyGlobalScale, jsOr, List.lookup, Stats.zero, basicFix,
      cfgRoadsOnly, bboxFix, roadElem, List.filterMap_cons, List.foldl_cons, hy]
  refine ⟨h1, h2, ?_, ?_, ?_⟩
  · norm_num [c7run1, generateModels, clearModels, generateBasePlatform,
      processElement, elementBranch, truthy, bumpCounter, createRoad, filterProject,
      latLonToLocal, isPointInBounds, isElementInBounds, getElementBounds, ebStep,
      boundsIntersect, lineIntersectsBounds, consecPairs, areaNotNo, roadConfigFor,
      roadSegments, roadSegmentRecord, msqrtFix, boxGeometry, boxPositions, boxIndices,
      createExportableGeometry, validateGeometryForExport, addOffset, statsOfRecords,
      updateModelStats, applyGlobalScale, jsOr, List.lookup, Stats.zero, basicFix,
      cfgRoadsOnly, bboxFix, roadElem, List.filterMap_cons, List.foldl_cons, hy]
  · norm_num [c7run1, c7run2, generateModels, clearModels, generateBasePlatform,
      processElement, elementBranch, truthy, bumpCounter, createRoad, filterProject,
      latLonToLocal, isPointInBounds, isElementInBounds, getElementBounds, ebStep,
      boundsIntersect, lineIntersectsBounds, consecPairs, areaNotNo, roadConfigFor,
      roadSegments, roadSegmentRecord, msqrtFix, boxGeometry, boxPositions, boxIndices,
      createExportableGeometry, validateGeometryForExport, addOffset, statsOfRecords,
      updateModelStats, applyGlobalScale, jsOr, List.lookup, Stats.zero, basicFix,
      cfgRoadsOnly, bboxFix, roadElem, List.filterMap_cons, List.foldl_cons, hy]
  · rw [h1, h2]
    simp [Stats.mk.injEq]

/-- C8: the spatial filter (i) rejects every element with an empty geometry
point list, (ii) accepts every element with at least one vertex inside the
bounding box's inclusive bounds, and (iii) rejects every element that has
no vertex inside the box, no edge (consecutive or closing) whose bounds
overlap the box, and does not contain the box (per the four-corner
ray-casting containment test). -/
theorem c8_spatial_filter :
    (∀ (e : OSMElement) (bbox : BBox), e.geometry = [] →
      isElementInBounds e bbox = false) ∧
    (∀ (e : OSMElement) (bbox : BBox) (p : LatLon), p ∈ e.geometry →
      isPointInBounds p bbox = true → isElementInBounds e bbox = true) ∧
    (∀ (e : OSMElement) (bbox : BBox), e.geometry ≠ [] →
      (∀ p ∈ e.geometry, isPointInBounds p bbox = false) →
      (∀ pr ∈ allEdges e.geometry, lineIntersectsBounds pr.1 pr.2 bbox = false) →
      isPolygonContainsBounds e.geometry bbox = false →
      isElementInBounds e bbox = false) := by
  refine ⟨?_, ?_, ?_⟩
  · intro e bbox h
    simp [isElementInBounds, h]
  · intro e bbox p hp hpin
    obtain ⟨eid, tags, geom⟩ := e
    cases geom with
    | nil => cases hp
    | cons p0 rest =>
      have hb := getElementBounds_mem hp
      simp only [isPointInBounds, Bool.and_eq_true, decide_eq_true_eq] at hpin
      have hbi : boundsIntersect (getElementBounds (p0 :: rest)) bbox = true := by
        rw [boundsIntersect, if_neg]
        push_neg
        refine ⟨?_, ?_, ?_, ?_⟩ <;> dsimp only at hb ⊢ <;> linarith [hb.1, hb.2.1, hb.2.2.1,
          hb.2.2.2, hpin.1.1.1, hpin.1.1.2, hpin.1.2, hpin.2]
      have hany : (p0 :: rest).any (fun x => isPointInBounds x bbox) = true :=
        List.any_eq_true.mpr ⟨p, hp, by
          simp only [isPointInBounds, Bool.and_eq_true, decide_eq_true_eq]
          exact hpin⟩
      simp [isElementInBounds, hbi, hany]
  · intro e bbox hne hnp hedge hcont
    obtain ⟨eid, tags, geom⟩ := e
    cases geom with
    | nil => simp [isElementInBounds]
    | cons p0 rest =>
      have hany : (p0 :: rest).any (fun x => isPointInBounds x bbox) = false := by
        rw [Bool.eq_false_iff]
        intro hx
        obtain ⟨x, hxm, hxv⟩ := List.any_eq_true.mp hx
        rw [hnp x hxm] at hxv
        cases hxv
      have hcp : (consecPairs (p0 :: rest)).any
          (fun pr => lineIntersectsBounds pr.1 pr.2 bbox) = false := by
        rw [Bool.eq_false_iff]
        intro hx
        obtain ⟨pr, hprm, hprv⟩ := List.any_eq_true.mp hx
        rw [hedge pr (List.mem_append_left _ hprm)] at hprv
        cases hprv
      have hclose : lineIntersectsBounds ((p0 :: rest).getLastD p0) p0 bbox = false :=
        hedge ((p0 :: rest).getLastD p0, p0)
          (List.mem_append_right _ (List.mem_singleton.mpr rfl))
      have hclose2 : lineIntersectsBounds ((p0 :: rest).getLast?.getD p0) p0 bbox = false := by
        rw [← List.getLastD_eq_getLast?]
        exact hclose
      cases hbi : boundsIntersect (getElementBounds (p0 :: rest)) bbox <;>
        simp [isElementInBounds, hbi, hany, hcp, hclose, hclose2, hcont]

/-- C8 witness: the filter at three concrete inputs — an empty-geometry
element (rejected), a two-point element with one vertex inside the box
(accepted), and a fully outside element (rejected). -/
theorem c8_spatial_filter_witness :
    isElementInBounds ⟨1, none, []⟩ bboxFix = false ∧
    isElementInBounds ⟨2, none, [⟨0, 0⟩, ⟨5, 5⟩]⟩ bboxFix = true ∧
    isElementInBounds ⟨3, none, [⟨5, 5⟩, ⟨6, 6⟩]⟩ bboxFix = false := by
  refine ⟨c8_spatial_filter.1 ⟨1, none, []⟩ bboxFix rfl,
    c8_spatial_filter.2.1 ⟨2, none, [⟨0, 0⟩, ⟨5, 5⟩]⟩ bboxFix ⟨0, 0⟩
      (by simp) (by norm_num [isPointInBounds, bboxFix]),
    c8_spatial_filter.2.2 ⟨3, none, [⟨5, 5⟩, ⟨6, 6⟩]⟩ bboxFix (by simp) ?_ ?_ ?_⟩
  · intro p hp
    rcases List.mem_cons.mp hp with rfl | hp
    · norm_num [isPointInBounds, bboxFix]
    · rcases List.mem_cons.mp hp with rfl | hp
      · norm_num [isPointInBounds, bboxFix]
      · cases hp
  · intro pr hpr
    rcases List.mem_cons.mp hpr with rfl | hpr
    · norm_num [lineIntersectsBounds, bboxFix]
    · rcases List.mem_cons.mp hpr with rfl | hpr
      · norm_num [lineIntersectsBounds, bboxFix]
      · cases hpr
  · norm_num [isPolygonContainsBounds, isPointInPolygon, cyclicShift, bboxFix]

/-- C10: in the generated 3MF document, every emitted `<triangle>` of every
object has three pairwise-distinct vertex indices, each strictly below the
object's emitted vertex count — no degenerate or out-of-range triangle is
ever written (for indexed records via the explicit filter; for non-indexed
records the synthesized sequential index has the property as well). -/
theorem c10_triangle_validity :
    ∀ (models : List MeshRecord) (o : Obj3MF) (t : Tri),
      o ∈ (generate3MFContent models).objects → t ∈ o.triangles →
      t.a ≠ t.b ∧ t.b ≠ t.c ∧ t.a ≠ t.c ∧
      t.a < o.vertices.length ∧ t.b < o.vertices.length ∧ t.c < o.vertices.length := by
  intro models o t ho ht
  obtain ⟨g, hv, hverts, htris⟩ := generated_object_spec ho
  rw [htris] at ht
  have h := modelTriangles_ok ht
  rw [hverts, modelVertices_length g hv]
  exact h

/-- C10 witness: the invariant at the document generated from the concrete
valid record, for its single triangle. -/
theorem c10_triangle_validity_witness :
    (0 : ℕ) ≠ 1 ∧ (1 : ℕ) ≠ 2 ∧ (0 : ℕ) ≠ 2 ∧ (0 : ℕ) < 3 ∧ (1 : ℕ) < 3 ∧ (2 : ℕ) < 3 := by
  have hobj : (generate3MFContent [mValid]).objects =
      [⟨1, 1, modelVertices gValid, modelTriangles gValid⟩] := by
    have hgen : generate3MFContent [mValid] =
        ⟨"millimeter",
         [⟨1, materialIdFor (dedupKeepFirst ([mValid].map (fun m => m.rtype))) mValid.rtype,
           modelVertices gValid, modelTriangles gValid⟩], [1], []⟩ := by
      simp only [generate3MFContent]
      rw [show ([mValid] : List MeshRecord).enum = [(0, mValid)] from rfl]
      rw [List.foldl_cons, gen3mfStep_emit _ _ _ gValid rfl
        (by simp [validateGeometry, gValid, JsNum.isFin])
        (by simp [modelVertices, gValid, jsTriples, List.filterMap_cons])
        (by simp [modelTriangles, gValid, jsTriples, List.filterMap_cons]),
        List.foldl_nil]
      rfl
    rw [hgen]
    simp [materialIdFor, dedupKeepFirst, mValid, List.indexOf?, List.findIdx?]
  have hmem : (⟨1, 1, modelVertices gValid, modelTriangles gValid⟩ : Obj3MF) ∈
      (generate3MFContent [mValid]).objects := by
    rw [hobj]
    exact List.mem_singleton.mpr rfl
  have htmem : (⟨0, 1, 2⟩ : Tri) ∈
      (⟨1, 1, modelVertices gValid, modelTriangles gValid⟩ : Obj3MF).triangles := by
    simp [modelTriangles, gValid, jsTriples, List.filterMap_cons]
  have h := c10_triangle_validity [mValid] ⟨1, 1, modelVertices gValid, modelTriangles gValid⟩
    ⟨0, 1, 2⟩ hmem htmem
  have hlen : (modelVertices gValid).length = 3 := by
    simp [modelVertices, gValid, jsTriples, List.filterMap_cons]
  rw [show (⟨1, 1, modelVertices gValid, modelTriangles gValid⟩ : Obj3MF).vertices =
    modelVertices gValid from rfl, hlen] at h
  exact h

end MapTo3MF
